import Mathlib

/-!
Verification of the REST API movie/user/cinema service (Express + MongoDB)
against its natural-language specification.

The JavaScript request handlers are shallowly embedded as pure Lean
functions.  JavaScript/BSON values that the handlers actually inspect are
modelled explicitly:

* JSON primitives (`JPrim`) with JavaScript truthiness (`jsFalsy`);
* JavaScript numbers that can be `Infinity`/`NaN` (`JSNum`), needed because
  `Math.ceil(totalDocs / 0)` produces those values;
* fields whose value may be an array, a primitive, or a plain object
  (`JField`), because the handlers branch on `Array.isArray` and truthiness;
* thrown `TypeError`s (calling `.map`/`.includes` on non-functions) as
  `Except String`, which the route-level `try/catch` turns into 500 responses.

The MongoDB collaborator is modelled as in-memory lists of documents with
the query/aggregation fragments the routes use (findOne by `_id`, `$set`
updates on the first match, `$unwind`/`$sort`/`$limit`/`$group`/`$project`
pipelines, `distinct`).  BSON equality is type-sensitive (a stored number
never equals a queried string), `$group` outputs only the group key and the
accumulator fields, and `$project` inclusion keeps a field only when it is
present in the input document — all as documented MongoDB semantics.
Geospatial query execution happens inside the store and is abstracted as a
function parameter of the cinema geo handlers; the claims about those
routes only concern the input guards that run before any query.
-/

/-- Document identifiers: a numeric id (seeded data) or an ObjectId
(modelled by its 24-hex-character string). -/
inductive Ident where
  | num (n : Int)
  | obj (s : String)
deriving DecidableEq, Repr

/-- JSON primitive values as they arrive in request bodies. -/
inductive JPrim where
  | jnull
  | jbool (b : Bool)
  | jnum (q : ℚ)
  | jstr (s : String)
deriving DecidableEq, Repr

/-- JavaScript truthiness of a primitive: `null`, `false`, `0` and `""` are
falsy. -/
def jsFalsy : JPrim → Bool
  | .jnull => true
  | .jbool b => !b
  | .jnum q => q == 0
  | .jstr s => s == ""

/-- A JSON field value that the handlers test with `Array.isArray` and for
truthiness: an array of `α`, a primitive, or a non-array object (always
truthy, has no `.map`/`.length` of interest). -/
inductive JField (α : Type) where
  | arr (l : List α)
  | prim (v : JPrim)
  | objv
deriving DecidableEq, Repr

/-- Truthiness of a `JField` value: arrays (even empty ones) and objects are
truthy; primitives follow `jsFalsy`. -/
def jfTruthy : JField α → Bool
  | .arr _ => true
  | .prim v => !jsFalsy v
  | .objv => true

/-- A JavaScript number that may be `Infinity` or `NaN` (produced by
division by zero in the pagination code). -/
inductive JSNum where
  | num (q : ℚ)
  | inf
  | nan
deriving DecidableEq, Repr

/-- JavaScript strict equality `===` on `JSNum`; `NaN === NaN` is false. -/
def jsEqN : JSNum → JSNum → Bool
  | .num p, .num q => p == q
  | .inf, .inf => true
  | _, _ => false

/-- Successor on a JavaScript number: `Infinity + 1 = Infinity`,
`NaN + 1 = NaN`. -/
def jsAdd1 : JSNum → JSNum
  | .num q => .num (q + 1)
  | .inf => .inf
  | .nan => .nan

/-- Comparison `p > t` of an ordinary integer with a `JSNum`; every
comparison with `NaN` is false, and nothing is greater than `Infinity`. -/
def jsGtNat (p : Nat) : JSNum → Bool
  | .num q => decide ((q : ℚ) < (p : ℚ))
  | .inf => false
  | .nan => false

/-- Comparison `p < t` of an ordinary integer with a `JSNum`. -/
def jsLtNat (p : Nat) : JSNum → Bool
  | .num q => decide ((p : ℚ) < (q : ℚ))
  | .inf => true
  | .nan => false

/-- Comparison `p ≤ t` of an ordinary integer with a `JSNum`. -/
def jsLeNat (p : Nat) : JSNum → Bool
  | .num q => decide ((p : ℚ) ≤ (q : ℚ))
  | .inf => true
  | .nan => false

/-- Falsiness of a parsed coordinate (`!latitude` in the source): `NaN`
(non-numeric input) and `0` are falsy. -/
def jsFalsyN : JSNum → Bool
  | .num q => q == 0
  | .inf => false
  | .nan => true

/-- The regex `/^\d+$/` of the source: a non-empty, digits-only string. -/
def isDigits (s : String) : Bool :=
  !s.data.isEmpty && s.data.all Char.isDigit

/-- The regex `/^[a-zA-Z]+$/` used for genre names. -/
def isAlphaStr (s : String) : Bool :=
  !s.data.isEmpty && s.data.all Char.isAlpha

/-- The value `parseInt` yields on a string already known to match
`/^\d+$/`. -/
def natOfDigits (s : String) : Nat :=
  s.data.foldl (fun n c => 10 * n + (c.toNat - Char.toNat (Char.ofNat 48))) 0

/-- Hexadecimal digit test for ObjectId strings. -/
def isHexChar (c : Char) : Bool :=
  c.isDigit || ('a' ≤ c && c ≤ 'f') || ('A' ≤ c && c ≤ 'F')

/-- `ObjectId.isValid`: a 24-character hex string (or any 12-character
string, which the driver reads as 12 raw bytes). -/
def objectIdValid (s : String) : Bool :=
  (s.data.length == 24 && s.data.all isHexChar) || s.data.length == 12

/-- The identifier resolver `checkId`, defined identically in the users and
movies routers: a digits-only segment parses as an integer id, otherwise a
valid ObjectId string parses as an ObjectId, otherwise `null`. -/
def checkId (s : String) : Option Ident :=
  if isDigits s then some (.num (natOfDigits s : Int))
  else if objectIdValid s then some (.obj s)
  else none

/-- JavaScript falsiness of a resolved identifier (`!movieId` in the `put`
handlers): `null` is falsy and so is the number `0`. -/
def identFalsy : Ident → Bool
  | .num n => n == 0
  | .obj _ => false

/-- String conversion for interpolated error messages. -/
def jprimToString : JPrim → String
  | .jnull => "null"
  | .jbool b => if b then "true" else "false"
  | .jnum q => if q.den == 1 then toString q.num else toString q
  | .jstr s => s

/-- Update of the first matching element of a list (MongoDB `updateOne`). -/
def updateFirst (p : α → Bool) (f : α → α) : List α → List α
  | [] => []
  | x :: xs => if p x then f x :: xs else x :: updateFirst p f xs

/-- Deletion of the first matching element of a list (MongoDB `deleteOne`). -/
def deleteFirst (p : α → Bool) : List α → List α
  | [] => []
  | x :: xs => if p x then xs else x :: deleteFirst p xs

/-- A stored movie document.  `title`/`year`/`genres` are optional because
an inserted document only carries the fields its creation request supplied. -/
structure MovieDoc where
  _id : Ident
  title : Option JPrim
  year : Option JPrim
  genres : Option (JField JPrim)
deriving DecidableEq, Repr

/-- An embedded rating entry after server-side stamping: the original
`movieid`/`rating`/extra keys of the request plus `timestamp` and `date`. -/
structure StampedEntry where
  movieid : Option JPrim
  rating : Option JPrim
  extra : List String
  timestamp : Int
  date : String
deriving DecidableEq, Repr

/-- The value stored under a user's `movies` key.  The handlers normally
store an array of stamped entries, but a `PUT` may `$set` a falsy non-array
value straight through (see claim C2). -/
inductive StoredMovies where
  | entries (l : List StampedEntry)
  | raw (v : JPrim)
deriving DecidableEq, Repr

/-- A stored user document. -/
structure UserDoc where
  _id : Ident
  name : Option JPrim
  gender : Option JPrim
  age : Option JPrim
  occupation : Option JPrim
  movies : StoredMovies
  num_ratings : Option JPrim
deriving DecidableEq, Repr

/-- A stored cinema document (the GeoJSON geometry is only read by the
store's geospatial engine, which is abstracted away). -/
structure CinemaDoc where
  _id : String
  movies : Option (List JPrim)
deriving DecidableEq, Repr

/-- The three collections of the database. -/
structure DB where
  users : List UserDoc
  movies : List MovieDoc
  cinemas : List CinemaDoc
deriving DecidableEq, Repr

/-- `findOne({_id: movieid})` issued by user validation, where `movieid` is
a JavaScript number: it only matches documents with an equal numeric `_id`. -/
def movieExistsNum (ms : List MovieDoc) (q : ℚ) : Bool :=
  ms.any (fun m =>
    match m._id with
    | .num n => (n : ℚ) == q
    | .obj _ => false)

/-- `findOne({_id: v})` for an arbitrary primitive query value: only a
numeric value can match a stored (numeric) `_id`; strings never match
ObjectIds in a raw query. -/
def movieExistsVal (ms : List MovieDoc) (v : JPrim) : Bool :=
  match v with
  | .jnum q => movieExistsNum ms q
  | _ => false

/-- `db.collection('movies').distinct('genres')`: the distinct values found
under `genres` across all movie documents, arrays flattened, in first
occurrence order (the store does not specify an order). -/
def distinctGenres (ms : List MovieDoc) : List JPrim :=
  ((ms.map (fun m =>
    match m.genres with
    | some (.arr l) => l
    | some (.prim v) => [v]
    | some .objv => []
    | none => [])).flatten).dedup

/-- Movie creation/update input after `filterValidFields` has projected the
body object down to `{title, year, genres}`. -/
structure MovieInput where
  title : Option JPrim
  year : Option JPrim
  genres : Option (JField JPrim)
deriving DecidableEq, Repr

/-- Check `!movie.title || typeof movie.title !== 'string' ||
!movie.title.trim()` of `validateMovie`: every non-string is either falsy
or fails the `typeof` test, and a string fails iff it trims to empty,
i.e. iff it consists solely of whitespace. -/
def titleInvalidCreate : Option JPrim → Bool
  | some (.jstr s) => s.data.all Char.isWhitespace
  | _ => true

/-- Check `!movie.year || typeof movie.year !== 'number' ||
movie.year <= 1500` of `validateMovie` (the falsy value `0` also satisfies
`<= 1500`). -/
def yearInvalidCreate : Option JPrim → Bool
  | some (.jnum q) => decide (q ≤ 1500)
  | _ => true

/-- Error message for a missing/invalid `genres` field in `validateMovie`;
the falsy, the non-array and the empty-array cases all push this message. -/
def genresMsg : String :=
  "Campo \x27genres\x27 inválido ou ausente. Deve ser um array e ter pelo menos um género"

/-- The genre loop of `validateMovie`.  The source forgot `await` on
`db.collection('movies').distinct('genres')`, so `availableGenres` is a
Promise and the first `availableGenres.includes(genre)` call — reached for
the first string-typed element — throws
`TypeError: availableGenres.includes is not a function`.  Non-string
elements are reported before the call is reached. -/
def genresLoopCreate : List JPrim → Except String (List String)
  | [] => .ok []
  | .jstr _ :: _ => .error "availableGenres.includes is not a function"
  | _ :: rest =>
    match genresLoopCreate rest with
    | .error e => .error e
    | .ok es => .ok ("Os géneros devem ser strings" :: es)

/-- `validateMovie` of the movies router (creation; all fields mandatory).
Because of the missing `await` (see `genresLoopCreate`) it throws instead
of consulting the distinct-genre whitelist whenever `genres` is a non-empty
array containing at least one string. -/
def validateMovie (m : MovieInput) : Except String (List String) :=
  let e1 := if titleInvalidCreate m.title then ["Campo \x27title\x27 inválido ou ausente"] else []
  let e2 := if yearInvalidCreate m.year then ["Campo \x27year\x27 inválido ou ausente"] else []
  match m.genres with
  | some (.arr (g :: gs)) =>
    match genresLoopCreate (g :: gs) with
    | .error e => .error e
    | .ok es => .ok (e1 ++ e2 ++ es)
  | _ => .ok (e1 ++ e2 ++ [genresMsg])

/-- The per-index validation loop of `POST /movies`: validation errors are
accumulated as `{movieIndex, errors}` pairs, and a thrown `TypeError`
aborts the whole request. -/
def processMovies : Nat → List MovieInput → Except String (List (Nat × List String))
  | _, [] => .ok []
  | i, m :: rest =>
    match validateMovie m with
    | .error e => .error e
    | .ok errs =>
      match processMovies (i + 1) rest with
      | .error e => .error e
      | .ok acc => .ok (if errs.isEmpty then acc else (i, errs) :: acc)

/-- Responses of `POST /movies`. -/
inductive MoviesPostResp where
  | badReq (msg : String)
  | badReqDetails (msg : String) (details : List (Nat × List String))
  | created (msg : String)
  | err500 (msg : String)
deriving DecidableEq, Repr

/-- The request body of a batch-create route: either not an array (rejected
up front) or an array of (already field-filtered) inputs. -/
inductive MBodyVal where
  | notArr
  | arr (l : List MovieInput)
deriving DecidableEq, Repr

/-- Document built by `insertMany` for a validated movie input: the
filtered fields plus a store-assigned `_id`. -/
def mkMovieDoc (id : Ident) (m : MovieInput) : MovieDoc :=
  ⟨id, m.title, m.year, m.genres⟩

/-- Handler of `POST /movies`: reject non-array bodies, filter + validate
each movie accumulating `{movieIndex, errors}`, reject the whole batch on
any error, otherwise insert all documents in one `insertMany` (the store
assigns ids via `freshId`).  A thrown validation `TypeError` is caught and
reported as a 500. -/
def moviesPost (db : DB) (body : MBodyVal) (freshId : Nat → Ident) :
    MoviesPostResp × DB :=
  match body with
  | .notArr => (.badReq "Os dados devem estar em um formato de array", db)
  | .arr ms =>
    match processMovies 0 ms with
    | .error e => (.err500 ("Erro ao recuperar filmes: " ++ e), db)
    | .ok errsArr =>
      if errsArr.isEmpty then
        (.created "Filme/s adicionado/s com sucesso",
          { db with movies := db.movies ++ (ms.enum.map (fun p => mkMovieDoc (freshId p.1) p.2)) })
      else
        (.badReqDetails "Dados do filme inválidos" errsArr, db)

/-- `validateMovieToUpdate` (all fields optional; this one does `await` the
distinct-genre query, so it really checks the whitelist). -/
def validateMovieToUpdate (mdb : List MovieDoc) (m : MovieInput) : List String :=
  (match m.title with
   | some (.jstr _) => []
   | some v => if jsFalsy v then [] else ["O campo \x27title\x27 deve ser uma string"]
   | none => []) ++
  (match m.year with
   | some (.jnum q) =>
     if q == 0 then []
     else if decide (q < 1500) then ["O campo \x27year\x27 deve ser um número inteiro positivo e maior que 1500"]
     else []
   | some v => if jsFalsy v then [] else ["O campo \x27year\x27 deve ser um número inteiro positivo e maior que 1500"]
   | none => []) ++
  (match m.genres with
   | none => []
   | some (.prim v) =>
     if jsFalsy v then [] else ["O campo \x27genres\x27 deve ser um array"]
   | some .objv => ["O campo \x27genres\x27 deve ser um array"]
   | some (.arr []) => ["O campo \x27genres\x27 deve ter pelo menos um gênero"]
   | some (.arr (g :: gs)) =>
     (g :: gs).map (fun gv =>
       match gv with
       | .jstr s =>
         if (distinctGenres mdb).contains (.jstr s) then []
         else ["O género \x27" ++ s ++ "\x27 não é válido. Os géneros disponíveis são: " ++
               String.intercalate ", " ((distinctGenres mdb).map jprimToString)]
       | _ => ["Os géneros devem ser strings"]) |>.flatten)

/-- Number of fields present in a filtered movie body
(`Object.keys(body).length`). -/
def presentCountM (m : MovieInput) : Nat :=
  (if m.title.isSome then 1 else 0) + (if m.year.isSome then 1 else 0) +
  (if m.genres.isSome then 1 else 0)

/-- Responses of `PUT /movies/id/:movie_id`. -/
inductive MoviesPutResp where
  | badReq (msg : String)
  | badReqDetails (msg : String) (details : List String)
  | notFound (msg : String)
  | okMsg (msg : String)
deriving DecidableEq, Repr

/-- A `PUT` request body: either an array (rejected) or an object already
projected by `filterValidFields`. -/
inductive MPutBody where
  | arrBody
  | objBody (m : MovieInput)
deriving DecidableEq, Repr

/-- `$set` application of a filtered movie body to a stored movie: exactly
the keys present in the body are replaced. -/
def applyMovieSet (m : MovieInput) (x : MovieDoc) : MovieDoc :=
  { x with
    title := match m.title with | some v => some v | none => x.title
    year := match m.year with | some v => some v | none => x.year
    genres := match m.genres with | some g => some g | none => x.genres }

/-- Handler of `PUT /movies/id/:movie_id`.  Note the guard is `!movieId`
(falsiness), so the numeric identifier `0` is rejected exactly like an
unparseable one. -/
def moviesPut (db : DB) (ids : String) (body : MPutBody) : MoviesPutResp × DB :=
  match checkId ids with
  | none => (.badReq "Id do filme inválido", db)
  | some mid =>
    if identFalsy mid then (.badReq "Id do filme inválido", db)
    else
      match db.movies.find? (fun m => m._id == mid) with
      | none => (.notFound "Filme não existe", db)
      | some _ =>
        match body with
        | .arrBody => (.badReq "Os dados devem estar em um formato de objeto", db)
        | .objBody m =>
          let errs := validateMovieToUpdate db.movies m
          if !errs.isEmpty then (.badReqDetails "Dados do filme inválidos" errs, db)
          else if presentCountM m == 0 then
            (.badReq "Não foram fornecidos campos válidos para atualizar", db)
          else
            (.okMsg "Filme atualizado com sucesso",
              { db with movies := updateFirst (fun x => x._id == mid) (applyMovieSet m) db.movies })

/-- Responses of `DELETE /movies/id/:movie_id`. -/
inductive MoviesDelResp where
  | badReq (msg : String)
  | notFound (msg : String)
  | okMsg (msg : String)
deriving DecidableEq, Repr

/-- Handler of `DELETE /movies/id/:movie_id` (this guard is
`movieId === null`, so the numeric id `0` passes through to the lookup). -/
def moviesDelete (db : DB) (ids : String) : MoviesDelResp × DB :=
  match checkId ids with
  | none => (.badReq "Id do filme inválido", db)
  | some mid =>
    match db.movies.find? (fun m => m._id == mid) with
    | none => (.notFound "Filme não existe", db)
    | some _ =>
      (.okMsg "Filme apagado com sucesso",
        { db with movies := deleteFirst (fun m => m._id == mid) db.movies })

/-- One element produced by `$unwind: "$movies"` on a user document: a
proper rating sub-document, or — when the stored `movies` value is a
non-null, non-array value — that value itself (MongoDB treats it as a
one-element array); `null`/missing/empty-array fields produce nothing. -/
inductive TopVal where
  | ent (e : StampedEntry)
  | pv (v : JPrim)
deriving DecidableEq, Repr

/-- `$unwind` of a stored `movies` field. -/
def unwindStored : StoredMovies → List TopVal
  | .entries l => l.map .ent
  | .raw .jnull => []
  | .raw v => [.pv v]

/-- The value found at the path `movies.rating` of an unwound element
(`none` when the field is missing). -/
def sortKey : TopVal → Option JPrim
  | .ent e => e.rating
  | .pv _ => none

/-- Whether the path `movies.movieid` of an unwound element equals the
queried identifier (type-sensitive BSON comparison: only a numeric value
matches a numeric `_id`). -/
def valMatchesId (tv : TopVal) (mid : Ident) : Bool :=
  match tv with
  | .ent e =>
    match e.movieid, mid with
    | some (.jnum q), .num n => (n : ℚ) == q
    | _, _ => false
  | .pv _ => false

/-- BSON type rank used by the store when sorting mixed values:
missing/null < numbers < strings < booleans. -/
def bsonRank : Option JPrim → Nat
  | none => 0
  | some .jnull => 0
  | some (.jnum _) => 1
  | some (.jstr _) => 2
  | some (.jbool _) => 3

/-- BSON `≤` on sort keys: by type rank, then by value within numbers,
strings and booleans. -/
def bsonLe (a b : Option JPrim) : Bool :=
  if bsonRank a < bsonRank b then true
  else if bsonRank b < bsonRank a then false
  else
    match a, b with
    | some (.jnum p), some (.jnum q) => decide (p ≤ q)
    | some (.jstr s), some (.jstr t) => decide (s ≤ t)
    | some (.jbool x), some (.jbool y) => !x || y
    | _, _ => true

/-- Descending comparison on unwound elements used by
`$sort: {"movies.rating": -1}` (`a` may come before `b` iff its rating key
is at least `b`'s). -/
def ratingDescRel (a b : TopVal) : Prop :=
  bsonLe (sortKey b) (sortKey a) = true

instance : DecidableRel ratingDescRel := fun _ _ => instDecidableEqBool _ _

/-- Average-rating aggregation of `GET /movies/id/:movie_id`: `$unwind` all
users' ratings, `$match` the movie id, `$group` with `$avg` (which skips
non-numeric values and yields BSON `null` when none remain; the `$group`
stage emits no document at all when its input is empty). -/
inductive AvgVal where
  | num (q : ℚ)
  | nullv
  | noRatings (s : String)
deriving DecidableEq, Repr

/-- The numeric ratings among the unwound user entries matching a movie id. -/
def matchedRatings (users : List UserDoc) (mid : Ident) : List ℚ :=
  ((users.map (fun u => unwindStored u.movies)).flatten.filter
    (fun tv => valMatchesId tv mid)).filterMap
    (fun tv =>
      match sortKey tv with
      | some (.jnum q) => some q
      | _ => none)

/-- Whether any unwound user entry matches the movie id (decides whether
the aggregation returns an empty array). -/
def anyMatches (users : List UserDoc) (mid : Ident) : Bool :=
  ((users.map (fun u => unwindStored u.movies)).flatten.any
    (fun tv => valMatchesId tv mid))

/-- Responses of `GET /movies/id/:movie_id`. -/
inductive MovieGetResp where
  | badReq (msg : String)
  | notFound (msg : String)
  | okMovie (m : MovieDoc) (averageRating : AvgVal)
deriving DecidableEq, Repr

/-- Handler of `GET /movies/id/:movie_id`: resolve the id (strict `null`
test, so `0` proceeds), 404 when absent, otherwise attach the average
rating aggregated over all users' embedded ratings (or the placeholder
string when no ratings reference the movie). -/
def moviesGetById (db : DB) (ids : String) : MovieGetResp :=
  match checkId ids with
  | none => .badReq "Id do filme inválido"
  | some mid =>
    match db.movies.find? (fun m => m._id == mid) with
    | none => .notFound "Filme não encontrado"
    | some movie =>
      if anyMatches db.users mid then
        match matchedRatings db.users mid with
        | [] => .okMovie movie .nullv
        | q :: qs => .okMovie movie (.num (((q :: qs).foldl (· + ·) 0) / ((q :: qs).length : ℚ)))
      else .okMovie movie (.noRatings "Sem avaliações")

/-- Responses of `GET /movies/genres/:genre_name/year/:year`. -/
inductive GenreYearResp where
  | badReq (msg : String)
  | notFoundGenres (msg : String) (genresAvailable : List JPrim)
  | notFound (msg : String)
  | okMovies (l : List (Option JPrim × Option JPrim × Option (JField JPrim)))
deriving DecidableEq, Repr

/-- Whether a stored movie matches the query
`find({genres: genre, year: year})` where `year` is the *string* taken
straight from the path (the source validates its range with `parseInt` but
never converts it for the query).  BSON equality is type-sensitive, so a
numeric stored `year` never equals the queried string. -/
def genreYearMatch (genre yearStr : String) (m : MovieDoc) : Bool :=
  (match m.genres with
   | some (.arr l) => l.contains (.jstr genre)
   | some (.prim v) => v == .jstr genre
   | _ => false) &&
  m.year == some (.jstr yearStr)

/-- Handler of `GET /movies/genres/:genre_name/year/:year` (route 15):
format checks, genre-existence check against the distinct set (404 with
the available list), year range check against 1500..current year, then the
string-typed query described at `genreYearMatch`; the `{_id: 0}` projection
drops the identifier from each result. -/
def moviesGenreYear (db : DB) (genreName yearStr : String) (currentYear : Int) :
    GenreYearResp :=
  if genreName == "" || yearStr == "" then
    .badReq "Os parâmetros \x27genre_name\x27 e \x27year\x27 são obrigatórios."
  else if !(isAlphaStr genreName && isDigits yearStr) then
    .badReq "O género só deve conter letras e o ano deve ser um número inteiro"
  else if !(distinctGenres db.movies).contains (.jstr genreName) then
    .notFoundGenres
      "Género não encontrado. Verifique se a primeira letra é maiscúla e se está escrito da mesma forma"
      (distinctGenres db.movies)
  else if decide ((natOfDigits yearStr : Int) < 1500) || decide (currentYear < (natOfDigits yearStr : Int)) then
    .badReq "O ano fornecido é inválido."
  else
    match db.movies.filter (genreYearMatch genreName yearStr) with
    | [] => .notFound "Não foi encontrado nenhum filme com estas características"
    | l => .okMovies (l.map (fun m => (m.title, m.year, m.genres)))

/-- A rating entry as it appears in a request body: either not an object
(`typeof !== 'object' || === null`), or an object with optional
`movieid`/`rating` values and a list of any other keys it carries. -/
inductive EntryInput where
  | notObj (v : JPrim)
  | eobj (movieid : Option JPrim) (rating : Option JPrim) (extra : List String)
deriving DecidableEq, Repr

/-- User creation/update input after `filterValidFields` has projected the
body down to `{name, gender, age, occupation, movies}`. -/
structure UserInput where
  name : Option JPrim
  gender : Option JPrim
  age : Option JPrim
  occupation : Option JPrim
  movies : Option (JField EntryInput)
deriving DecidableEq, Repr

/-- Check `!user.name || typeof user.name !== 'string' || !user.name.trim()`
(`validateUser`): every non-string is falsy or fails `typeof`; a string
fails iff it trims to empty, i.e. iff it consists solely of whitespace. -/
def nameInvalidCreate : Option JPrim → Bool
  | some (.jstr s) => s.data.all Char.isWhitespace
  | _ => true

/-- Check for `gender`: must be the string `"F"` or `"M"`. -/
def genderInvalidCreate : Option JPrim → Bool
  | some (.jstr s) => !(s == "F" || s == "M")
  | _ => true

/-- Check `!user.age || typeof user.age !== 'number' || user.age <= 0`. -/
def ageInvalidCreate : Option JPrim → Bool
  | some (.jnum q) => decide (q ≤ 0)
  | _ => true

/-- The errors `validateUser` collects for the rating entry at position
`i`: non-objects are reported as such; otherwise the `movieid` shape check,
the referential-existence lookup (only performed for a positive number),
the `rating` range check, and the extra-key check, in source order. -/
def validateEntryCreate (mdb : List MovieDoc) (i : Nat) : EntryInput → List String
  | .notObj _ =>
    ["O item na posição " ++ toString i ++ " do campo \"movies\" deve ser um objeto."]
  | .eobj mid rat extra =>
    (match mid with
     | some (.jnum q) =>
       if decide (q ≤ 0) then
         ["O campo \"movieid\" do item na posição " ++ toString i ++
          " está inválido ou ausente (no array de movies)"]
       else []
     | _ =>
       ["O campo \"movieid\" do item na posição " ++ toString i ++
        " está inválido ou ausente (no array de movies)"]) ++
    (match mid with
     | some (.jnum q) =>
       if decide (0 < q) && !movieExistsNum mdb q then
         ["O filme com o id " ++ jprimToString (.jnum q) ++ " não existe."]
       else []
     | _ => []) ++
    (match rat with
     | some (.jnum q) =>
       if q == 0 || decide (q < 1) || decide (5 < q) then
         ["O campo \"rating\" do item na posição " ++ toString i ++
          " está inválido ou ausente (no array de movies)"]
       else []
     | _ =>
       ["O campo \"rating\" do item na posição " ++ toString i ++
        " está inválido ou ausente (no array de movies)"]) ++
    (if extra.isEmpty then []
     else ["O item na posição " ++ toString i ++ " contém campos não permitidos: " ++
           String.intercalate ", " extra])

/-- The `for` loop over `user.movies` in `validateUser`. -/
def validateEntriesCreate (mdb : List MovieDoc) : Nat → List EntryInput → List String
  | _, [] => []
  | i, e :: es => validateEntryCreate mdb i e ++ validateEntriesCreate mdb (i + 1) es

/-- `validateUser` of the users router (creation; all top-level fields
mandatory, `movies` optional but validated when truthy).  All errors are
accumulated; the function itself never throws. -/
def validateUser (mdb : List MovieDoc) (u : UserInput) : List String :=
  (if nameInvalidCreate u.name then ["Campo \x27name\x27 inválido ou ausente"] else []) ++
  (if genderInvalidCreate u.gender then ["Campo \x27gender\x27 inválido ou ausente"] else []) ++
  (if ageInvalidCreate u.age then ["Campo \x27age\x27 inválido ou ausente"] else []) ++
  (if nameInvalidCreate u.occupation then ["Campo \x27occupation\x27 inválido ou ausente"] else []) ++
  (match u.movies with
   | none => []
   | some (.prim v) => if jsFalsy v then [] else ["Campo \x27movies\x27 deve ser um array"]
   | some .objv => ["Campo \x27movies\x27 deve ser um array"]
   | some (.arr l) => validateEntriesCreate mdb 0 l)

/-- `addTimestampAndDate` applied to one entry: spread the original entry
and stamp the shared capture-time `timestamp`/`date` (spreading a
non-object contributes no fields of its own; such entries were already
reported as validation errors, so they are never inserted). -/
def stampEntry (ts : Int) (d : String) : EntryInput → StampedEntry
  | .eobj mid rat extra => ⟨mid, rat, extra, ts, d⟩
  | .notObj _ => ⟨none, none, [], ts, d⟩

/-- `addTimestampAndDate`: the same timestamp and date are stamped onto
every entry of the request. -/
def addTimestampAndDate (ts : Int) (d : String) (l : List EntryInput) :
    List StampedEntry :=
  l.map (stampEntry ts d)

/-- The `movies`/`num_ratings` preparation inside the `POST /users` loop:
a truthy `movies` value is stamped (`.map` throws a `TypeError` when the
value is truthy but not an array); a falsy or absent value defaults to
`[]` with `num_ratings = 0`. -/
def prepMovies (ts : Int) (d : String) :
    Option (JField EntryInput) → Except String (List StampedEntry × Nat)
  | some (.arr l) =>
    let ms := addTimestampAndDate ts d l
    .ok (ms, ms.length)
  | some (.prim v) =>
    if jsFalsy v then .ok ([], 0) else .error "movies.map is not a function"
  | some .objv => .error "movies.map is not a function"
  | none => .ok ([], 0)

/-- Whether stamping a supplied `movies` value throws (truthy non-array). -/
def throwsOnStamp : Option (JField EntryInput) → Bool
  | some (.arr _) => false
  | some (.prim v) => !jsFalsy v
  | some .objv => true
  | none => false

/-- A user document prepared for insertion (before the store assigns its
`_id`). -/
structure PreparedUser where
  name : Option JPrim
  gender : Option JPrim
  age : Option JPrim
  occupation : Option JPrim
  movies : List StampedEntry
  num_ratings : Nat
deriving DecidableEq, Repr

/-- The per-index loop of `POST /users`: validate (accumulating
`{userIndex, errors}` pairs), then stamp ratings and set `num_ratings`; a
thrown `TypeError` aborts the whole request before any check of the
accumulated errors. -/
def processUsers (mdb : List MovieDoc) (ts : Int) (d : String) :
    Nat → List UserInput → Except String (List (Nat × List String) × List PreparedUser)
  | _, [] => .ok ([], [])
  | i, u :: rest =>
    let errs := validateUser mdb u
    match prepMovies ts d u.movies with
    | .error e => .error e
    | .ok (ms, n) =>
      match processUsers mdb ts d (i + 1) rest with
      | .error e => .error e
      | .ok (errsArr, prepared) =>
        .ok ((if errs.isEmpty then errsArr else (i, errs) :: errsArr),
          ⟨u.name, u.gender, u.age, u.occupation, ms, n⟩ :: prepared)

/-- Responses of `POST /users`. -/
inductive UsersPostResp where
  | badReq (msg : String)
  | badReqDetails (msg : String) (details : List (Nat × List String))
  | created (msg : String)
  | err500 (msg : String)
deriving DecidableEq, Repr

/-- The request body of `POST /users`. -/
inductive UBodyVal where
  | notArr
  | arr (l : List UserInput)
deriving DecidableEq, Repr

/-- Document built by `insertMany` for a prepared user. -/
def mkUserDoc (id : Ident) (p : PreparedUser) : UserDoc :=
  ⟨id, p.name, p.gender, p.age, p.occupation, .entries p.movies,
    some (.jnum (p.num_ratings : ℚ))⟩

/-- Handler of `POST /users`: reject non-array bodies; validate every user
accumulating per-index errors; all-or-nothing — any error rejects the whole
batch with the `{userIndex, errors}` pairs and nothing is inserted;
otherwise every prepared document is inserted in one `insertMany`.  A
`TypeError` thrown while stamping is caught and reported as a 500. -/
def usersPost (db : DB) (body : UBodyVal) (ts : Int) (d : String)
    (freshId : Nat → Ident) : UsersPostResp × DB :=
  match body with
  | .notArr => (.badReq "Os dados devem estar em um formato de array", db)
  | .arr us =>
    match processUsers db.movies ts d 0 us with
    | .error e => (.err500 ("Erro ao recuperar users: " ++ e), db)
    | .ok (errsArr, prepared) =>
      if !errsArr.isEmpty then
        (.badReqDetails "Dados do user inválidos" errsArr, db)
      else
        (.created "User/s adicionado/s com sucesso",
          { db with users := db.users ++ (prepared.enum.map (fun p => mkUserDoc (freshId p.1) p.2)) })

/-- A value inside an aggregation output document. -/
inductive DVal where
  | vid (i : Ident)
  | vtops (l : List TopVal)
deriving DecidableEq, Repr

/-- An aggregation output document: an ordered association list of fields,
as produced stage by stage by the pipeline. -/
def Doc : Type := List (String × DVal)

instance : DecidableEq Doc := inferInstanceAs (DecidableEq (List (String × DVal)))

instance : Repr Doc := inferInstanceAs (Repr (List (String × DVal)))

/-- Field access in an aggregation output document. -/
def lookupKey (k : String) (d : Doc) : Option DVal :=
  (d.find? (fun kv => kv.1 == k)).map (fun kv => kv.2)

/-- The group keys of `$group: {_id: "$_id", ...}` in first-occurrence
order (the store leaves group output order unspecified; a fixed order is
chosen here). -/
def groupKeys : List (Ident × TopVal) → List Ident
  | [] => []
  | (k, _) :: rest => k :: (groupKeys rest).filter (fun x => !(x == k))

/-- `$group: {_id: "$_id", topMovies: {$push: "$movies"}}`: one output
document per distinct key, holding ONLY the group key and the accumulator
field — every other input field is dropped by the stage. -/
def groupByIdPush (l : List (Ident × TopVal)) : List Doc :=
  (groupKeys l).map (fun k =>
    [("_id", DVal.vid k),
     ("topMovies", DVal.vtops (l.filterMap (fun p => if p.1 == k then some p.2 else none)))])

/-- `$project` with inclusion spec `{_id, name, gender, age, occupation,
num_ratings, topMovies}`: an included field appears in the output only when
it is present in the input document. -/
def projectTop (d : Doc) : Doc :=
  d.filter (fun kv =>
    ["_id", "name", "gender", "age", "occupation", "num_ratings", "topMovies"].contains kv.1)

/-- The top-5-ratings aggregation of `GET /users/id/:user_id` (route 6):
`$match` on the user id, `$unwind` the ratings, `$sort` by rating
descending, `$limit 5`, `$group` pushing into `topMovies`, `$project`. -/
def topMoviesAgg (users : List UserDoc) (uid : Ident) : List Doc :=
  let matched := users.filter (fun x => x._id == uid)
  let unwound := (matched.map (fun v => (unwindStored v.movies).map (fun tv => (v._id, tv)))).flatten
  let sorted := List.insertionSort (fun a b : Ident × TopVal => ratingDescRel a.2 b.2) unwound
  let limited := sorted.take 5
  (groupByIdPush limited).map projectTop

/-- The reduced projection returned for a user with no ratings. -/
structure ReducedUser where
  _id : Ident
  name : Option JPrim
  gender : Option JPrim
  age : Option JPrim
  occupation : Option JPrim
  num_ratings : Option JPrim
  topMovies : String
deriving DecidableEq, Repr

/-- Responses of `GET /users/id/:user_id`. -/
inductive UserGetResp where
  | badReq (msg : String)
  | notFound (msg : String)
  | okReduced (u : ReducedUser)
  | okList (docs : List Doc)
  | err500 (msg : String)
deriving DecidableEq, Repr

/-- Evaluation of `user.movies.length` on the stored value: arrays and
strings have a `length`; `null` throws a `TypeError`; other primitives
yield `undefined` (modelled as `none`). -/
def storedMoviesLength : StoredMovies → Except String (Option Nat)
  | .entries l => .ok (some l.length)
  | .raw .jnull => .error "Cannot read properties of null (reading \x27length\x27)"
  | .raw (.jstr s) => .ok (some s.length)
  | .raw _ => .ok none

/-- Handler of `GET /users/id/:user_id`: resolve the id (strict `null`
test), point-fetch (404 when absent), return the reduced projection when
`user.movies.length === 0`, otherwise answer with the array produced by the
top-5 aggregation (`topMoviesAgg`). -/
def usersGetById (db : DB) (ids : String) : UserGetResp :=
  match checkId ids with
  | none => .badReq "Id do user inválido"
  | some uid =>
    match db.users.find? (fun u => u._id == uid) with
    | none => .notFound "User não encontrado"
    | some u =>
      match storedMoviesLength u.movies with
      | .error e => .err500 ("Erro ao encontrar o user: " ++ e)
      | .ok n =>
        if n == some 0 then
          .okReduced ⟨u._id, u.name, u.gender, u.age, u.occupation, u.num_ratings,
            "O user não avaliou nenhum filme"⟩
        else
          .okList (topMoviesAgg db.users uid)

/-- Responses of `DELETE /users/id/:user_id`. -/
inductive UsersDelResp where
  | badReq (msg : String)
  | notFound (msg : String)
  | okMsg (msg : String)
deriving DecidableEq, Repr

/-- Handler of `DELETE /users/id/:user_id` (guard is `userId === null`, so
the numeric id `0` passes through to the lookup). -/
def usersDelete (db : DB) (ids : String) : UsersDelResp × DB :=
  match checkId ids with
  | none => (.badReq "Id do user inválido", db)
  | some uid =>
    match db.users.find? (fun u => u._id == uid) with
    | none => (.notFound "User não existe", db)
    | some _ =>
      (.okMsg "User apagado com sucesso",
        { db with users := deleteFirst (fun u => u._id == uid) db.users })

/-- The errors `validateUserToUpdate` collects for the rating entry at
position `i` (shape check is `typeof !== 'number' || <= 0` without a
truthiness guard; the existence lookup runs for any truthy `movieid`, and a
truthy non-number never matches a stored `_id`). -/
def validateEntryUpdate (mdb : List MovieDoc) (i : Nat) : EntryInput → List String
  | .notObj _ =>
    ["O item na posição " ++ toString i ++ " do campo \"movies\" deve ser um objeto."]
  | .eobj mid rat extra =>
    (match mid with
     | some (.jnum q) =>
       if decide (q ≤ 0) then
         ["O campo \"movieid\" do item na posição " ++ toString i ++
          " deve ser um número inteiro positivo."]
       else []
     | _ =>
       ["O campo \"movieid\" do item na posição " ++ toString i ++
        " deve ser um número inteiro positivo."]) ++
    (match mid with
     | some v =>
       if jsFalsy v then []
       else if movieExistsVal mdb v then []
       else ["O filme com o id " ++ jprimToString v ++ " não existe."]
     | none => []) ++
    (match rat with
     | some (.jnum q) =>
       if decide (q < 1) || decide (5 < q) then
         ["O campo \"rating\" do item na posição " ++ toString i ++
          " deve ser um número entre 1 e 5."]
       else []
     | _ =>
       ["O campo \"rating\" do item na posição " ++ toString i ++
        " deve ser um número entre 1 e 5."]) ++
    (if extra.isEmpty then []
     else ["O item na posição " ++ toString i ++ " contém campos não permitidos: " ++
           String.intercalate ", " extra])

/-- The `for` loop over `user.movies` in `validateUserToUpdate`. -/
def validateEntriesUpdate (mdb : List MovieDoc) : Nat → List EntryInput → List String
  | _, [] => []
  | i, e :: es => validateEntryUpdate mdb i e ++ validateEntriesUpdate mdb (i + 1) es

/-- `validateUserToUpdate`: every field optional, but validated when
truthy (falsy values — including `null`, `0`, `""` — are skipped). -/
def validateUserToUpdate (mdb : List MovieDoc) (u : UserInput) : List String :=
  (match u.name with
   | some (.jstr _) => []
   | some v => if jsFalsy v then [] else ["O campo \x27name\x27 deve ser uma string"]
   | none => []) ++
  (match u.gender with
   | some v =>
     if jsFalsy v then []
     else if v == .jstr "M" || v == .jstr "F" then []
     else ["O campo \x27gender\x27 deve ser \x27M\x27 ou \x27F\x27"]
   | none => []) ++
  (match u.age with
   | some (.jnum q) =>
     if q == 0 then []
     else if decide (q < 0) then ["O campo \x27age\x27 deve ser um número inteiro positivo"]
     else []
   | some v => if jsFalsy v then [] else ["O campo \x27age\x27 deve ser um número inteiro positivo"]
   | none => []) ++
  (match u.occupation with
   | some (.jstr _) => []
   | some v => if jsFalsy v then [] else ["O campo \x27occupation\x27 deve ser uma string"]
   | none => []) ++
  (match u.movies with
   | none => []
   | some (.prim v) => if jsFalsy v then [] else ["O campo \x27movies\x27 deve ser um array"]
   | some .objv => ["O campo \x27movies\x27 deve ser um array"]
   | some (.arr l) => validateEntriesUpdate mdb 0 l)

/-- Number of fields present in a filtered user body
(`Object.keys(body).length`). -/
def presentCountU (u : UserInput) : Nat :=
  (if u.name.isSome then 1 else 0) + (if u.gender.isSome then 1 else 0) +
  (if u.age.isSome then 1 else 0) + (if u.occupation.isSome then 1 else 0) +
  (if u.movies.isSome then 1 else 0)

/-- The `movies`/`num_ratings` block of `PUT /users/id/:user_id`: when the
body's `movies` is truthy, `num_ratings` becomes `body.movies.length` and
the entries are stamped (throwing on a truthy non-array); a falsy supplied
value is passed to `$set` untouched and `num_ratings` is NOT recomputed;
an absent `movies` touches neither field. -/
def prepPutMovies (ts : Int) (d : String) :
    Option (JField EntryInput) → Except String (Option (StoredMovies × Option Nat))
  | none => .ok none
  | some (.arr l) => .ok (some (.entries (addTimestampAndDate ts d l), some l.length))
  | some (.prim v) =>
    if jsFalsy v then .ok (some (.raw v, none)) else .error "movies.map is not a function"
  | some .objv => .error "movies.map is not a function"

/-- `$set` application of a filtered user body (plus the prepared
`movies`/`num_ratings` pair) to a stored user: exactly the supplied keys
are replaced. -/
def applyUserSet (u : UserInput) (upd : Option (StoredMovies × Option Nat))
    (x : UserDoc) : UserDoc :=
  { x with
    name := match u.name with | some v => some v | none => x.name
    gender := match u.gender with | some v => some v | none => x.gender
    age := match u.age with | some v => some v | none => x.age
    occupation := match u.occupation with | some v => some v | none => x.occupation
    movies := match upd with | some (sm, _) => sm | none => x.movies
    num_ratings := match upd with
      | some (_, some n) => some (.jnum (n : ℚ))
      | _ => x.num_ratings }

/-- Responses of `PUT /users/id/:user_id`. -/
inductive UsersPutResp where
  | badReq (msg : String)
  | badReqDetails (msg : String) (details : List String)
  | notFound (msg : String)
  | okMsg (msg : String)
  | err500 (msg : String)
deriving DecidableEq, Repr

/-- A `PUT /users` body: an array (rejected) or a filtered object. -/
inductive UPutBody where
  | arrBody
  | objBody (u : UserInput)
deriving DecidableEq, Repr

/-- Handler of `PUT /users/id/:user_id`: resolve the id with the FALSY
guard `!userId` (rejecting the numeric id `0`), fetch-or-404, reject array
bodies, filter + validate with the optional-field rules, require at least
one valid field, prepare `movies`/`num_ratings` (a stamping `TypeError`
becomes the constant 500 message), and apply the `$set` partial update to
the first matching document. -/
def usersPut (db : DB) (ids : String) (body : UPutBody) (ts : Int) (d : String) :
    UsersPutResp × DB :=
  match checkId ids with
  | none => (.badReq "Id do user inválido", db)
  | some uid =>
    if identFalsy uid then (.badReq "Id do user inválido", db)
    else
      match db.users.find? (fun u => u._id == uid) with
      | none => (.notFound "User não existe", db)
      | some _ =>
        match body with
        | .arrBody => (.badReq "Os dados devem estar em um formato de objeto", db)
        | .objBody u =>
          let errs := validateUserToUpdate db.movies u
          if !errs.isEmpty then (.badReqDetails "Dados do user inválidos" errs, db)
          else if presentCountU u == 0 then
            (.badReq "Não foram fornecidos campos válidos para atualizar", db)
          else
            match prepPutMovies ts d u.movies with
            | .error _ => (.err500 "Erro ao atualizar o user", db)
            | .ok upd =>
              (.okMsg "User atualizado com sucesso",
                { db with users := updateFirst (fun x => x._id == uid) (applyUserSet u upd) db.users })

/-- BSON `≤` on `_id` values for the ascending `sort({_id: 1})` of the list
routes: numbers sort before ObjectIds. -/
def identLe (a b : Ident) : Prop :=
  (match a, b with
   | .num n, .num m => decide (n ≤ m)
   | .num _, .obj _ => true
   | .obj _, .num _ => false
   | .obj s, .obj t => decide (s ≤ t)) = true

instance : DecidableRel identLe := fun _ _ => instDecidableEqBool _ _

/-- `Math.ceil(totalDocs / limit)` with JavaScript division: `x / 0` is
`Infinity` for `x > 0` and `NaN` for `x = 0`. -/
def jsCeilDiv (totalDocs limit : Nat) : JSNum :=
  if limit == 0 then (if totalDocs == 0 then .nan else .inf)
  else .num (((totalDocs + limit - 1) / limit : Nat) : ℚ)

/-- The find/skip/limit slice of the list routes; MongoDB's `limit(0)`
means "no limit". -/
def mongoSlice (l : List α) (skip lim : Nat) : List α :=
  if lim == 0 then l.drop skip else (l.drop skip).take lim

/-- The response envelope of a paginated list route.  `prevPage` and
`nextPage` are optional keys; `nextPage` is a JavaScript number because
with `limit=0` the code computes it from `Infinity`/`NaN`. -/
structure PageEnv (α : Type) where
  items : List α
  totalDocs : Nat
  currentPageDocs : Nat
  totalPages : JSNum
  currentPage : Nat
  prevPage : Option Nat
  nextPage : Option JSNum
deriving DecidableEq, Repr

/-- Responses of a paginated list route. -/
inductive ListResp (α : Type) where
  | redirect (loc : String)
  | badReq (msg : String)
  | notFound (msg : String)
  | ok (env : PageEnv α)
deriving DecidableEq, Repr

/-- The pagination handler shared (by copy-paste) by `GET /users`,
`GET /movies` and `GET /cinemas`: redirect when `page` or `limit` is
missing/empty; 400 unless both match `/^\d+$/`; count, compute
`totalPages = Math.ceil(totalDocs/limit)`; 404 when
`page < 1 || page > totalPages` (JavaScript comparison, hence false against
`NaN`/`Infinity`); fetch the slice sorted by `_id` ascending; and build the
envelope, including `prevPage` iff it differs from the sentinel `0` and
`nextPage` iff it differs (by `!==`, hence always for `NaN`) from the
sentinel `totalPages + 1`. -/
def paginate (getId : α → Ident) (coll : List α) (path : String)
    (pageQ limitQ : Option String) : ListResp α :=
  match pageQ, limitQ with
  | some ps, some ls =>
    if ps == "" || ls == "" then .redirect (path ++ "?page=1&limit=10")
    else if !(isDigits ps && isDigits ls) then
      .badReq "A página e o limite devem ser números inteiros."
    else
      let page := natOfDigits ps
      let limit := natOfDigits ls
      let totalDocs := coll.length
      let totalPages := jsCeilDiv totalDocs limit
      if page < 1 || jsGtNat page totalPages then .notFound "Página não existe"
      else
        let results := mongoSlice
          (List.insertionSort (fun a b => identLe (getId a) (getId b)) coll)
          ((page - 1) * limit) limit
        let prevPage := if 1 < page then page - 1 else 0
        let nextPage := if jsLtNat page totalPages then JSNum.num ((page : ℚ) + 1)
          else jsAdd1 totalPages
        .ok
          { items := results
            totalDocs := totalDocs
            currentPageDocs := results.length
            totalPages := totalPages
            currentPage := page
            prevPage := if !(prevPage == 0) then some prevPage else none
            nextPage := if !(jsEqN nextPage (jsAdd1 totalPages)) then some nextPage else none }
  | _, _ => .redirect (path ++ "?page=1&limit=10")

/-- `GET /users` (route 2). -/
def usersList (db : DB) (pageQ limitQ : Option String) : ListResp UserDoc :=
  paginate (fun u => u._id) db.users "/users" pageQ limitQ

/-- `GET /movies` (route 1). -/
def moviesList (db : DB) (pageQ limitQ : Option String) : ListResp MovieDoc :=
  paginate (fun m => m._id) db.movies "/movies" pageQ limitQ

/-- `GET /cinemas`. -/
def cinemasList (db : DB) (pageQ limitQ : Option String) : ListResp CinemaDoc :=
  paginate (fun c => Ident.obj c._id) db.cinemas "/cinemas" pageQ limitQ

/-- Responses of `PUT /cinemas/id/:id_cinema`. -/
inductive CinPutResp where
  | badReq (msg : String)
  | notFound (msg : String)
  | okMsg (msg : String)
  | err500 (msg : String)
deriving DecidableEq, Repr

/-- Body of `PUT /cinemas/id/:id_cinema` (after JSON parsing): the `movies`
property may be absent, an array of primitive ids, a primitive, or an
object. -/
structure CinPutBody where
  movies : Option (JField JPrim)
deriving DecidableEq, Repr

/-- The merge loop of `PUT /cinemas/id/:id_cinema`: for each supplied id,
look it up in the movies collection; unknown ids are collected, known ids
are appended unless already present.  Returns (merged list, not-found
list). -/
def cinemaMergeLoop (mdb : List MovieDoc) : List JPrim → List JPrim × List JPrim →
    List JPrim × List JPrim
  | [], acc => acc
  | v :: rest, (cur, notAdded) =>
    if movieExistsVal mdb v then
      cinemaMergeLoop mdb rest (if cur.contains v then cur else cur ++ [v], notAdded)
    else
      cinemaMergeLoop mdb rest (cur, notAdded ++ [v])

/-- Handler of `PUT /cinemas/id/:id_cinema` (attach showing movies):
`new ObjectId(param)` throws (500) on an invalid id string; 404 when the
cinema is absent; 400 when the body's `movies` is falsy or not an array;
then the merge loop; if the count of not-found ids equals the length of the
supplied list, 404 `"Filme/s não encontrado/s, insira o id correto"`
WITHOUT updating (an empty supplied list therefore always takes this
branch: `0 === 0`); otherwise persist the merged list and report success
plus any skipped ids. -/
def cinemasPut (db : DB) (cid : String) (body : CinPutBody) : CinPutResp × DB :=
  if !objectIdValid cid then
    (.err500 ("Erro ao adicionar o/s filme/s: input must be a 24 character hex string, 12 byte Uint8Array, or an integer"), db)
  else
    match db.cinemas.find? (fun c => c._id == cid) with
    | none => (.notFound "Cinema não encontrado", db)
    | some cinema =>
      match body.movies with
      | none => (.badReq "Corpo da requisição deve conter a propriedade \x27movies\x27", db)
      | some (.prim v) =>
        if jsFalsy v then
          (.badReq "Corpo da requisição deve conter a propriedade \x27movies\x27", db)
        else
          (.badReq "Corpo da requisição deve conter a propriedade \x27movies\x27 como um array", db)
      | some .objv =>
        (.badReq "Corpo da requisição deve conter a propriedade \x27movies\x27 como um array", db)
      | some (.arr ids) =>
        let merged := cinemaMergeLoop db.movies ids (cinema.movies.getD [], [])
        if merged.2.length == ids.length then
          (.notFound "Filme/s não encontrado/s, insira o id correto", db)
        else
          (.okMsg ("Filme/s adicionado/s com sucesso" ++
            (if !merged.2.isEmpty then
              ", exceto o/s filme/s: " ++ String.intercalate ", " (merged.2.map jprimToString) ++
              " porque não existe/m."
            else "")),
            { db with cinemas := (updateFirst (fun c => c._id == cid)
                (fun c => { c with movies := some merged.1 }) db.cinemas) })

/-- Responses of the geospatial cinema routes. -/
inductive GeoResp where
  | badReq (msg : String)
  | notFound (msg : String)
  | okIds (l : List String)
  | okCount (n : Nat)
deriving DecidableEq, Repr

/-- Handler of `GET /cinemas/near/lng_lat/:lng/:lat`: the guard
`!latitude || !longitude` rejects coordinates that parse to `0` or `NaN`
with a 400 before the `$near` query (abstracted as `q`) runs. -/
def cinemasNear (q : JSNum → JSNum → List String) (lng lat : JSNum) : GeoResp :=
  if jsFalsyN lat || jsFalsyN lng then .badReq "Latitude e longitude são requiridas."
  else
    match q lng lat with
    | [] => .notFound "Não existem cinemas perto da localização especificada"
    | r => .okIds r

/-- Handler of `GET /cinemas/near/line/lng_lat/:lng1/:lat1/:lng2/:lat2`
(`$geoIntersects` against a line segment, abstracted as `q`). -/
def cinemasNearLine (q : JSNum → JSNum → JSNum → JSNum → List String)
    (lng1 lat1 lng2 lat2 : JSNum) : GeoResp :=
  if jsFalsyN lat1 || jsFalsyN lng1 || jsFalsyN lat2 || jsFalsyN lng2 then
    .badReq "Latitude e longitude para ambos os pontos são requiridas."
  else
    match q lng1 lat1 lng2 lat2 with
    | [] => .notFound "Não existem cinemas na linha especificada"
    | r => .okIds r

/-- Handler of `GET /cinemas/near/sum/lng_lat/:lng/:lat` (spherical
count-within-5km, abstracted as `count`). -/
def cinemasNearSum (count : JSNum → JSNum → Nat) (lng lat : JSNum) : GeoResp :=
  if jsFalsyN lat || jsFalsyN lng then .badReq "Latitude e longitude são requiridas."
  else if count lng lat == 0 then
    .notFound "Não existem cinemas perto da localização especificada"
  else .okCount (count lng lat)

/-- Handler of `GET /cinemas/within/long_lat/:lng/:lat` (point containment;
note the empty-result answer is a 400 in the source). -/
def cinemasWithin (q : JSNum → JSNum → List String) (lng lat : JSNum) : GeoResp :=
  if jsFalsyN lat || jsFalsyN lng then .badReq "Latitude e longitude devem ser fornecidas"
  else
    match q lng lat with
    | [] => .badReq "A pessoa não se encontra no festival do cinema"
    | r => .okIds r

/-- A movie document used by the concrete test databases. -/
def movDrama : MovieDoc :=
  ⟨.num 1, some (.jstr "X"), some (.jnum 1994), some (.arr [.jstr "Drama"])⟩

/-- Two stamped rating entries for the concrete user fixture. -/
def entry3 : StampedEntry := ⟨some (.jnum 1), some (.jnum 3), [], 10, "D0"⟩

/-- A second stamped rating entry (rating 5). -/
def entry5 : StampedEntry := ⟨some (.jnum 1), some (.jnum 5), [], 10, "D0"⟩

/-- A stored user with two ratings. -/
def userAna : UserDoc :=
  ⟨.num 7, some (.jstr "Ana"), some (.jstr "F"), some (.jnum 30), some (.jstr "eng"),
    .entries [entry3, entry5], some (.jnum 2)⟩

/-- A cinema fixture with a valid 24-hex ObjectId and no movie list. -/
def cinemaA : CinemaDoc := ⟨"aaaaaaaaaaaaaaaaaaaaaaaa", none⟩

/-- Concrete database: one movie, one user with two ratings, one cinema. -/
def dbW : DB := ⟨[userAna], [movDrama], [cinemaA]⟩

/-- The empty database. -/
def dbEmpty : DB := ⟨[], [], []⟩

/-- The `{userIndex, errors}` pairs `POST /users` accumulates, written as a
standalone recursion for use in theorem statements. -/
def userErrorDetails (mdb : List MovieDoc) : Nat → List UserInput → List (Nat × List String)
  | _, [] => []
  | i, u :: rest =>
    (if (validateUser mdb u).isEmpty then [] else [(i, validateUser mdb u)]) ++
      userErrorDetails mdb (i + 1) rest

/-- Whether a list response is a 200 with an envelope. -/
def isOkResp : ListResp α → Bool
  | .ok _ => true
  | _ => false

/-- The `prevPage` slot of a 200 list response. -/
def respPrev : ListResp α → Option (Option Nat)
  | .ok env => some env.prevPage
  | _ => none

/-- The `nextPage` slot of a 200 list response. -/
def respNext : ListResp α → Option (Option JSNum)
  | .ok env => some env.nextPage
  | _ => none

theorem find?_of_filter_singleton {p : α → Bool} {u : α} :
    ∀ {xs : List α}, xs.filter p = [u] → xs.find? p = some u := by
  intro xs
  induction xs with
  | nil => intro h; simp [List.filter] at h
  | cons x rest ih =>
    intro h
    by_cases hx : p x = true
    · rw [List.filter_cons_of_pos hx] at h
      have hxu : x = u := (List.cons_eq_cons.mp h).1
      rw [List.find?_cons_of_pos _ hx, hxu]
    · rw [List.filter_cons_of_neg (by simpa using hx)] at h
      rw [List.find?_cons_of_neg _ (by simpa using hx)]
      exact ih h

theorem mem_updateFirst {p : α → Bool} {f : α → α} {x : α} :
    ∀ {xs : List α}, x ∈ updateFirst p f xs → x ∈ xs ∨ ∃ y ∈ xs, x = f y := by
  intro xs
  induction xs with
  | nil => intro h; simp [updateFirst] at h
  | cons a rest ih =>
    intro h
    simp only [updateFirst] at h
    by_cases ha : p a = true
    · rw [if_pos ha] at h
      rcases List.mem_cons.mp h with h1 | h1
      · exact Or.inr ⟨a, List.mem_cons_self a rest, h1⟩
      · exact Or.inl (List.mem_cons_of_mem a h1)
    · rw [if_neg ha] at h
      rcases List.mem_cons.mp h with h1 | h1
      · exact Or.inl (h1 ▸ List.mem_cons_self a rest)
      · rcases ih h1 with h2 | ⟨y, hy, hxy⟩
        · exact Or.inl (List.mem_cons_of_mem a h2)
        · exact Or.inr ⟨y, List.mem_cons_of_mem a hy, hxy⟩

theorem prepMovies_eq (ts : Int) (d : String) (mf : Option (JField EntryInput)) :
    (throwsOnStamp mf = true ∧ prepMovies ts d mf = .error "movies.map is not a function") ∨
    (throwsOnStamp mf = false ∧ ∃ pr, prepMovies ts d mf = .ok pr ∧ pr.2 = pr.1.length) := by
  cases mf with
  | none => exact Or.inr ⟨rfl, ([], 0), rfl, rfl⟩
  | some jf =>
    cases jf with
    | arr l =>
      exact Or.inr ⟨rfl, (addTimestampAndDate ts d l, (addTimestampAndDate ts d l).length),
        rfl, rfl⟩
    | prim v =>
      by_cases hv : jsFalsy v = true
      · exact Or.inr ⟨by simp [throwsOnStamp, hv], ([], 0), by simp [prepMovies, hv], rfl⟩
      · exact Or.inl ⟨by simp [throwsOnStamp, hv], by simp [prepMovies, hv]⟩
    | objv => exact Or.inl ⟨rfl, rfl⟩

theorem processUsers_prepared (mdb : List MovieDoc) (ts : Int) (d : String) :
    ∀ (us : List UserInput) (i : Nat) (errsArr : List (Nat × List String))
      (ps : List PreparedUser),
      processUsers mdb ts d i us = .ok (errsArr, ps) →
      ∀ p ∈ ps, p.num_ratings = p.movies.length := by
  intro us
  induction us with
  | nil =>
    intro i errsArr ps h
    simp only [processUsers] at h
    cases h
    intro p hp
    simp at hp
  | cons u rest ih =>
    intro i errsArr ps h
    rcases prepMovies_eq ts d u.movies with ⟨_, herr⟩ | ⟨_, pr, hpr, hpr2⟩
    · simp only [processUsers, herr] at h
      exact Except.noConfusion h
    · simp only [processUsers, hpr] at h
      cases hr : processUsers mdb ts d (i + 1) rest with
      | error e => rw [hr] at h; simp at h
      | ok pair =>
        rw [hr] at h
        simp only [Except.ok.injEq, Prod.mk.injEq] at h
        have hps : ps = ⟨u.name, u.gender, u.age, u.occupation, pr.1, pr.2⟩ :: pair.2 :=
          h.2.symm
        intro p hp
        rw [hps] at hp
        rcases List.mem_cons.mp hp with h1 | h1
        · rw [h1]; exact hpr2
        · exact ih (i + 1) pair.1 pair.2 (by rw [hr]) p h1

theorem processUsers_ok_of_noThrow (mdb : List MovieDoc) (ts : Int) (d : String) :
    ∀ (us : List UserInput) (i : Nat),
      (∀ u ∈ us, throwsOnStamp u.movies = false) →
      ∃ ps, processUsers mdb ts d i us = .ok (userErrorDetails mdb i us, ps) ∧
        ps.length = us.length := by
  intro us
  induction us with
  | nil => intro i _; exact ⟨[], rfl, rfl⟩
  | cons u rest ih =>
    intro i hno
    have hu : throwsOnStamp u.movies = false := hno u (List.mem_cons_self u rest)
    rcases prepMovies_eq ts d u.movies with ⟨ht, _⟩ | ⟨_, pr, hpr, _⟩
    · rw [hu] at ht; cases ht
    · rcases ih (i + 1) (fun v hv => hno v (List.mem_cons_of_mem u hv)) with ⟨ps, hps, hlen⟩
      refine ⟨⟨u.name, u.gender, u.age, u.occupation, pr.1, pr.2⟩ :: ps, ?_, by simp [hlen]⟩
      simp only [processUsers, hpr, hps, userErrorDetails]
      by_cases he : (validateUser mdb u).isEmpty
      · simp [he]
      · simp [he]

theorem processUsers_error_of_throw (mdb : List MovieDoc) (ts : Int) (d : String) :
    ∀ (us : List UserInput) (i : Nat),
      (∃ u ∈ us, throwsOnStamp u.movies = true) →
      processUsers mdb ts d i us = .error "movies.map is not a function" := by
  intro us
  induction us with
  | nil => intro i h; rcases h with ⟨u, hu, _⟩; simp at hu
  | cons u rest ih =>
    intro i h
    rcases prepMovies_eq ts d u.movies with ⟨_, herr⟩ | ⟨hnothrow, pr, hpr, _⟩
    · simp [processUsers, herr]
    · rcases h with ⟨v, hv, hthrow⟩
      rcases List.mem_cons.mp hv with h1 | h1
      · rw [h1] at hthrow; rw [hthrow] at hnothrow; cases hnothrow
      · have hrest := ih (i + 1) ⟨v, h1, hthrow⟩
        simp [processUsers, hpr, hrest]

theorem bsonLe_total (a b : Option JPrim) : bsonLe a b = true ∨ bsonLe b a = true := by
  rcases a with _ | (_ | ba | qa | sa) <;> rcases b with _ | (_ | bb | qb | sb) <;>
    simp only [bsonLe, bsonRank] <;>
    first
      | (left; rfl)
      | (right; rfl)
      | (simp; exact le_total _ _)
      | (rcases ba with _ | _ <;> rcases bb with _ | _ <;> simp)

theorem bsonLe_trans {a b c : Option JPrim} (h1 : bsonLe a b = true)
    (h2 : bsonLe b c = true) : bsonLe a c = true := by
  rcases a with _ | (_ | ba | qa | sa) <;> rcases b with _ | (_ | bb | qb | sb) <;>
    rcases c with _ | (_ | bc | qc | sc) <;>
    simp only [bsonLe, bsonRank] at h1 h2 ⊢ <;>
    (try simp_all) <;>
    first
      | rfl
      | exact le_trans h1 h2
      | (rcases h1 with h | h <;> rcases h2 with g | g <;> simp_all)

theorem groupKeys_const {uid : Ident} :
    ∀ {l : List (Ident × TopVal)}, l ≠ [] → (∀ x ∈ l, x.1 = uid) →
      groupKeys l = [uid] := by
  intro l
  induction l with
  | nil => intro h; exact absurd rfl h
  | cons a rest ih =>
    intro _ hall
    have ha : a.1 = uid := hall a (List.mem_cons_self a rest)
    have hsub : ∀ k ∈ groupKeys rest, k = uid := by
      intro k hk
      by_cases hr : rest = []
      · rw [hr] at hk; simp [groupKeys] at hk
      · have := ih hr (fun x hx => hall x (List.mem_cons_of_mem a hx))
        rw [this] at hk
        simpa using hk
    cases a with
    | mk k v =>
      simp only at ha
      subst ha
      simp only [groupKeys, List.cons.injEq, true_and]
      rw [List.filter_eq_nil_iff]
      intro k2 hk2
      have := hsub k2 hk2
      subst this
      simp

theorem filterMap_const_key {uid : Ident} :
    ∀ {l : List (Ident × TopVal)}, (∀ x ∈ l, x.1 = uid) →
      (l.filterMap (fun p => if p.1 == uid then some p.2 else none)) = l.map Prod.snd := by
  intro l
  induction l with
  | nil => intro _; rfl
  | cons a rest ih =>
    intro hall
    have ha : a.1 = uid := hall a (List.mem_cons_self a rest)
    simp only [List.filterMap_cons, List.map_cons, ha]
    rw [if_pos (by simp)]
    rw [ih (fun x hx => hall x (List.mem_cons_of_mem a hx))]

theorem groupByIdPush_const {uid : Ident} {l : List (Ident × TopVal)} (hne : l ≠ [])
    (hall : ∀ x ∈ l, x.1 = uid) :
    groupByIdPush l = [[("_id", DVal.vid uid), ("topMovies", DVal.vtops (l.map Prod.snd))]] := by
  unfold groupByIdPush
  rw [groupKeys_const hne hall]
  simp only [List.map_cons, List.map_nil]
  rw [filterMap_const_key hall]

theorem topMoviesAgg_spec {users : List UserDoc} {uid : Ident} {u : UserDoc}
    {l : List StampedEntry}
    (h2 : users.filter (fun x => x._id == uid) = [u])
    (h3 : u.movies = .entries l) (h4 : l ≠ []) :
    ∃ tops : List TopVal,
      topMoviesAgg users uid =
        [[("_id", DVal.vid uid), ("topMovies", DVal.vtops tops)]] ∧
      tops.length ≤ 5 ∧ tops ≠ [] ∧
      List.Pairwise ratingDescRel tops := by
  haveI htot : IsTotal (Ident × TopVal) (fun a b => ratingDescRel a.2 b.2) :=
    ⟨fun a b => bsonLe_total (sortKey b.2) (sortKey a.2)⟩
  haveI htrans : IsTrans (Ident × TopVal) (fun a b => ratingDescRel a.2 b.2) :=
    ⟨fun _ _ _ hab hbc => bsonLe_trans hbc hab⟩
  have huid : u._id = uid := by
    have hu : u ∈ users.filter (fun x => x._id == uid) := by
      rw [h2]; exact List.mem_cons_self u []
    have := (List.mem_filter.mp hu).2
    simpa using this
  have hmain : topMoviesAgg users uid =
      (groupByIdPush ((List.insertionSort (fun a b : Ident × TopVal => ratingDescRel a.2 b.2)
        ((l.map TopVal.ent).map (fun tv => (u._id, tv)))).take 5)).map projectTop := by
    simp only [topMoviesAgg, h2, h3, unwindStored, List.map_cons, List.map_nil,
      List.flatten_cons, List.flatten_nil, List.append_nil]
  set unw := (l.map TopVal.ent).map (fun tv => (u._id, tv)) with hunw
  set sorted := List.insertionSort (fun a b : Ident × TopVal => ratingDescRel a.2 b.2) unw
    with hsortedDef
  have hperm : sorted.Perm unw := List.perm_insertionSort _ unw
  have hsorted : List.Pairwise (fun a b : Ident × TopVal => ratingDescRel a.2 b.2) sorted :=
    List.sorted_insertionSort _ unw
  have hlenunw : unw.length = l.length := by simp [hunw]
  have hlensorted : sorted.length = l.length := by rw [hperm.length_eq, hlenunw]
  have hfst : ∀ x ∈ sorted.take 5, x.1 = uid := by
    intro x hx
    have hx2 : x ∈ sorted := (List.take_sublist 5 sorted).mem hx
    have hx3 : x ∈ unw := hperm.mem_iff.mp hx2
    simp only [hunw, List.map_map, List.mem_map] at hx3
    rcases hx3 with ⟨e, _, he⟩
    rw [← he, ← huid]
    rfl
  have hne : sorted.take 5 ≠ [] := by
    intro hcon
    have := congrArg List.length hcon
    simp only [List.length_take, hlensorted, List.length_nil] at this
    rcases Nat.min_eq_zero_iff.mp this with h5 | h0
    · cases h5
    · exact h4 (List.length_eq_zero.mp h0)
  have hgrp := groupByIdPush_const hne hfst
  refine ⟨(sorted.take 5).map Prod.snd, ?_, ?_, ?_, ?_⟩
  · rw [hmain, hgrp]
    simp [projectTop]
  · calc ((sorted.take 5).map Prod.snd).length = (sorted.take 5).length := List.length_map _ _
      _ ≤ 5 := by simp [List.length_take]
  · intro hcon
    exact hne (List.map_eq_nil_iff.mp hcon)
  · exact List.Pairwise.map Prod.snd (fun a b h => h)
      (List.Pairwise.sublist (List.take_sublist 5 sorted) hsorted)

theorem usersPut_cases (db : DB) (s : String) (b : UPutBody) (ts : Int) (d : String) :
    (usersPut db s b ts d).2 = db ∨
    ∃ uid u upd, checkId s = some uid ∧ b = .objBody u ∧
      prepPutMovies ts d u.movies = .ok upd ∧
      (usersPut db s b ts d).2 =
        { db with users := updateFirst (fun x => x._id == uid) (applyUserSet u upd) db.users } := by
  cases hc : checkId s with
  | none => left; simp [usersPut, hc]
  | some uid =>
    by_cases hf : identFalsy uid = true
    · left; simp [usersPut, hc, hf]
    · cases hfind : db.users.find? (fun x => x._id == uid) with
      | none => left; simp [usersPut, hc, hf, hfind]
      | some w =>
        cases b with
        | arrBody => left; simp [usersPut, hc, hf, hfind]
        | objBody u =>
          by_cases he : (validateUserToUpdate db.movies u).isEmpty = true
          · by_cases hp : (presentCountU u == 0) = true
            · left; simp [usersPut, hc, hf, hfind, he, hp]
            · cases hprep : prepPutMovies ts d u.movies with
              | error e => left; simp [usersPut, hc, hf, hfind, he, hp, hprep]
              | ok upd =>
                right
                exact ⟨uid, u, upd, rfl, rfl, hprep,
                  by simp [usersPut, hc, hf, hfind, he, hp, hprep]⟩
          · left; simp [usersPut, hc, hf, hfind, he]

theorem validateUser_ne_of_throw {mdb : List MovieDoc} {u : UserInput}
    (h : throwsOnStamp u.movies = true) : validateUser mdb u ≠ [] := by
  have hmov : (match u.movies with
      | none => ([] : List String)
      | some (.prim v) => if jsFalsy v then [] else ["Campo \x27movies\x27 deve ser um array"]
      | some .objv => ["Campo \x27movies\x27 deve ser um array"]
      | some (.arr l) => validateEntriesCreate mdb 0 l) =
      ["Campo \x27movies\x27 deve ser um array"] := by
    cases hm : u.movies with
    | none => rw [hm] at h; simp [throwsOnStamp] at h
    | some jf =>
      cases jf with
      | arr l => rw [hm] at h; simp [throwsOnStamp] at h
      | prim v =>
        rw [hm] at h
        simp only [throwsOnStamp] at h
        have : jsFalsy v = false := by
          cases hv : jsFalsy v
          · rfl
          · rw [hv] at h; cases h
        simp [this]
      | objv => rfl
  unfold validateUser
  rw [hmov]
  intro hcon
  rcases List.append_eq_nil.mp hcon with ⟨_, h2⟩
  cases h2

theorem userErrorDetails_nil {mdb : List MovieDoc} :
    ∀ {us : List UserInput} {i : Nat}, userErrorDetails mdb i us = [] →
      ∀ u ∈ us, validateUser mdb u = [] := by
  intro us
  induction us with
  | nil => intro i _ u hu; simp at hu
  | cons v rest ih =>
    intro i h u hu
    simp only [userErrorDetails] at h
    rcases List.append_eq_nil.mp h with ⟨h1, h2⟩
    rcases List.mem_cons.mp hu with rfl | hmem
    · by_cases hv : (validateUser mdb u).isEmpty = true
      · exact List.isEmpty_iff.mp hv
      · rw [if_neg hv] at h1; cases h1
    · exact ih h2 u hmem

/-- Claim C1 (code evaluation).  The claim says `POST /movies` validates
each genre against the distinct stored-genre set, answering 400 for an
unknown genre and passing a movie whose genres are all known.  In the code,
`validateMovie` is missing `await` on `distinct('genres')` (its sibling
`validateMovieToUpdate` has it), so `availableGenres.includes` is called on
a Promise and throws: every movie whose `genres` is a non-empty array
containing a string — known genre or not, empty collection or not — makes
the request fail with a 500, and nothing is inserted. -/
theorem claim_C1_code_eval :
    JPrim.jstr "Drama" ∈ distinctGenres dbW.movies ∧
    moviesPost dbW
      (.arr [⟨some (.jstr "A"), some (.jnum 2000), some (.arr [.jstr "Drama"])⟩])
      (fun _ => .obj "e5") =
      (.err500 "Erro ao recuperar filmes: availableGenres.includes is not a function", dbW) ∧
    moviesPost dbEmpty
      (.arr [⟨some (.jstr "B"), some (.jnum 2001), some (.arr [.jstr "NewGenre"])⟩])
      (fun _ => .obj "e5") =
      (.err500 "Erro ao recuperar filmes: availableGenres.includes is not a function", dbEmpty) := by
  decide

/-- Claim C7 (code evaluation).  The claim says the genre/year route lists
exactly the stored movies whose `genres` contain the genre and whose
numeric `year` equals the requested year.  The stored movie below matches
the request (`Drama`, 1994, genre present in the distinct set, year in
range), yet the route answers 404, because the query compares the numeric
`year` field against the raw path *string* and BSON equality is
type-sensitive. -/
theorem claim_C7_code_eval :
    movDrama ∈ dbW.movies ∧
    movDrama.year = some (.jnum 1994) ∧
    movDrama.genres = some (.arr [.jstr "Drama"]) ∧
    JPrim.jstr "Drama" ∈ distinctGenres dbW.movies ∧
    moviesGenreYear dbW "Drama" "1994" 2026 =
      .notFound "Não foi encontrado nenhum filme com estas características" := by
  decide

/-- Claim C8: on each geospatial cinema route, a coordinate that parses to
`0` or to `NaN` — in ANY of the route's coordinate positions, including the
second point of the line route — is rejected with a 400 before any query
runs (the result does not depend on the abstracted store query), and in
every position a literal `0` coordinate is treated exactly like a `NaN`
(missing / non-numeric) one. -/
theorem claim_C8 (c : JSNum) (hc : c = .num 0 ∨ c = .nan) :
    (∀ q lng, cinemasNear q lng c = .badReq "Latitude e longitude são requiridas.") ∧
    (∀ q lat, cinemasNear q c lat = .badReq "Latitude e longitude são requiridas.") ∧
    (∀ q lat1 lng2 lat2, cinemasNearLine q c lat1 lng2 lat2 =
      .badReq "Latitude e longitude para ambos os pontos são requiridas.") ∧
    (∀ q lng1 lng2 lat2, cinemasNearLine q lng1 c lng2 lat2 =
      .badReq "Latitude e longitude para ambos os pontos são requiridas.") ∧
    (∀ q lng1 lat1 lat2, cinemasNearLine q lng1 lat1 c lat2 =
      .badReq "Latitude e longitude para ambos os pontos são requiridas.") ∧
    (∀ q lng1 lat1 lng2, cinemasNearLine q lng1 lat1 lng2 c =
      .badReq "Latitude e longitude para ambos os pontos são requiridas.") ∧
    (∀ cnt lng, cinemasNearSum cnt lng c = .badReq "Latitude e longitude são requiridas.") ∧
    (∀ cnt lat, cinemasNearSum cnt c lat = .badReq "Latitude e longitude são requiridas.") ∧
    (∀ q lng, cinemasWithin q lng c = .badReq "Latitude e longitude devem ser fornecidas") ∧
    (∀ q lat, cinemasWithin q c lat = .badReq "Latitude e longitude devem ser fornecidas") ∧
    (∀ q lng, cinemasNear q lng (JSNum.num 0) = cinemasNear q lng JSNum.nan) ∧
    (∀ q lat, cinemasNear q (JSNum.num 0) lat = cinemasNear q JSNum.nan lat) ∧
    (∀ q lat1 lng2 lat2, cinemasNearLine q (JSNum.num 0) lat1 lng2 lat2 =
      cinemasNearLine q JSNum.nan lat1 lng2 lat2) ∧
    (∀ q lng1 lng2 lat2, cinemasNearLine q lng1 (JSNum.num 0) lng2 lat2 =
      cinemasNearLine q lng1 JSNum.nan lng2 lat2) ∧
    (∀ q lng1 lat1 lat2, cinemasNearLine q lng1 lat1 (JSNum.num 0) lat2 =
      cinemasNearLine q lng1 lat1 JSNum.nan lat2) ∧
    (∀ q lng1 lat1 lng2, cinemasNearLine q lng1 lat1 lng2 (JSNum.num 0) =
      cinemasNearLine q lng1 lat1 lng2 JSNum.nan) ∧
    (∀ cnt lng, cinemasNearSum cnt lng (JSNum.num 0) = cinemasNearSum cnt lng JSNum.nan) ∧
    (∀ cnt lat, cinemasNearSum cnt (JSNum.num 0) lat = cinemasNearSum cnt JSNum.nan lat) ∧
    (∀ q lng, cinemasWithin q lng (JSNum.num 0) = cinemasWithin q lng JSNum.nan) ∧
    (∀ q lat, cinemasWithin q (JSNum.num 0) lat = cinemasWithin q JSNum.nan lat) := by
  have hfl : jsFalsyN c = true := by rcases hc with rfl | rfl <;> simp [jsFalsyN]
  refine ⟨fun q lng => by simp [cinemasNear, hfl],
    fun q lat => by simp [cinemasNear, hfl],
    fun q lat1 lng2 lat2 => by simp [cinemasNearLine, hfl],
    fun q lng1 lng2 lat2 => by simp [cinemasNearLine, hfl],
    fun q lng1 lat1 lat2 => by simp [cinemasNearLine, hfl],
    fun q lng1 lat1 lng2 => by simp [cinemasNearLine, hfl],
    fun cnt lng => by simp [cinemasNearSum, hfl],
    fun cnt lat => by simp [cinemasNearSum, hfl],
    fun q lng => by simp [cinemasWithin, hfl],
    fun q lat => by simp [cinemasWithin, hfl],
    fun q lng => by simp [cinemasNear, jsFalsyN],
    fun q lat => by simp [cinemasNear, jsFalsyN],
    fun q lat1 lng2 lat2 => by simp [cinemasNearLine, jsFalsyN],
    fun q lng1 lng2 lat2 => by simp [cinemasNearLine, jsFalsyN],
    fun q lng1 lat1 lat2 => by simp [cinemasNearLine, jsFalsyN],
    fun q lng1 lat1 lng2 => by simp [cinemasNearLine, jsFalsyN],
    fun cnt lng => by simp [cinemasNearSum, jsFalsyN],
    fun cnt lat => by simp [cinemasNearSum, jsFalsyN],
    fun q lng => by simp [cinemasWithin, jsFalsyN],
    fun q lat => by simp [cinemasWithin, jsFalsyN]⟩

/-- Witness for claim C8 at concrete inputs, exercising in particular the
cases where only the SECOND point of the line route is bad (`lat2 = 0`,
`lng2 = NaN`) alongside one bad-coordinate case per route and a
`0`-vs-`NaN` equivalence at the line route's `lng2` position. -/
theorem claim_C8_witness :
    cinemasNear (fun _ _ => []) (JSNum.num 3) (JSNum.num 0) =
      .badReq "Latitude e longitude são requiridas." ∧
    cinemasNearLine (fun _ _ _ _ => []) (JSNum.num 3) (JSNum.num 4) (JSNum.num 5) (JSNum.num 0) =
      .badReq "Latitude e longitude para ambos os pontos são requiridas." ∧
    cinemasNearLine (fun _ _ _ _ => []) (JSNum.num 3) (JSNum.num 4) JSNum.nan (JSNum.num 5) =
      .badReq "Latitude e longitude para ambos os pontos são requiridas." ∧
    cinemasNearSum (fun _ _ => 7) (JSNum.num 0) (JSNum.num 2) =
      .badReq "Latitude e longitude são requiridas." ∧
    cinemasWithin (fun _ _ => []) (JSNum.num 3) (JSNum.num 0) =
      .badReq "Latitude e longitude devem ser fornecidas" ∧
    cinemasNearLine (fun _ _ _ _ => ["c1"]) (JSNum.num 3) (JSNum.num 4) (JSNum.num 0) (JSNum.num 5) =
      cinemasNearLine (fun _ _ _ _ => ["c1"]) (JSNum.num 3) (JSNum.num 4) JSNum.nan (JSNum.num 5) := by
  obtain ⟨n1, n2, l1, l2, l3, l4, s1, s2, w1, w2, e1, e2, e3, e4, e5, e6, e7, e8, e9, e10⟩ :=
    claim_C8 (JSNum.num 0) (Or.inl rfl)
  obtain ⟨_, _, _, _, m3, _, _, _, _, _, _, _, _, _, _, _, _, _, _, _⟩ :=
    claim_C8 JSNum.nan (Or.inr rfl)
  exact ⟨n1 _ _, l4 _ _ _ _, m3 _ _ _ _, s2 _ _, w1 _ _, e5 _ _ _ _⟩

/-- Claim C9: the resolver maps the segment `"0"` to the numeric id `0`;
`GET`/`DELETE` by id test the resolved identifier with `=== null`, so they
accept `0` and proceed to the existence lookup (404 when no document has
that id), while both `PUT` handlers test it with `!movieId` falsiness and
reject the very same segment with a 400. -/
theorem claim_C9 (db : DB)
    (h1 : db.users.find? (fun u => u._id == Ident.num 0) = none)
    (h2 : db.movies.find? (fun m => m._id == Ident.num 0) = none) :
    checkId "0" = some (Ident.num 0) ∧
    usersGetById db "0" = .notFound "User não encontrado" ∧
    usersDelete db "0" = (.notFound "User não existe", db) ∧
    moviesGetById db "0" = .notFound "Filme não encontrado" ∧
    moviesDelete db "0" = (.notFound "Filme não existe", db) ∧
    (∀ b ts d, usersPut db "0" b ts d = (.badReq "Id do user inválido", db)) ∧
    (∀ b, moviesPut db "0" b = (.badReq "Id do filme inválido", db)) := by
  have hc : checkId "0" = some (Ident.num 0) := rfl
  refine ⟨rfl, ?_, ?_, ?_, ?_, ?_, ?_⟩
  · simp [usersGetById, hc, h1]
  · simp [usersDelete, hc, h1]
  · simp [moviesGetById, hc, h2]
  · simp [moviesDelete, hc, h2]
  · intro b ts d; rfl
  · intro b; rfl

/-- Witness for claim C9 on the empty database. -/
theorem claim_C9_witness :
    usersGetById dbEmpty "0" = .notFound "User não encontrado" ∧
    moviesGetById dbEmpty "0" = .notFound "Filme não encontrado" ∧
    usersPut dbEmpty "0" (.objBody ⟨some (.jstr "N"), none, none, none, none⟩) 1 "T" =
      (.badReq "Id do user inválido", dbEmpty) ∧
    moviesPut dbEmpty "0" (.objBody ⟨some (.jstr "T"), none, none⟩) =
      (.badReq "Id do filme inválido", dbEmpty) := by
  have h := claim_C9 dbEmpty (by decide) (by decide)
  exact ⟨h.2.1, h.2.2.2.1, h.2.2.2.2.2.1 _ 1 "T", h.2.2.2.2.2.2 _⟩

/-- Claim C10: a `PUT /cinemas/id/:id` on an existing cinema whose body is
`{movies: []}` answers 404 "Filme/s não encontrado/s" and leaves the
database unchanged, because the count of not-found ids (zero) equals the
length of the supplied list (zero). -/
theorem claim_C10 (db : DB) (cid : String) (c : CinemaDoc)
    (hvalid : objectIdValid cid = true)
    (hfind : db.cinemas.find? (fun x => x._id == cid) = some c) :
    cinemasPut db cid ⟨some (.arr [])⟩ =
      (.notFound "Filme/s não encontrado/s, insira o id correto", db) := by
  simp [cinemasPut, hvalid, hfind, cinemaMergeLoop]

/-- Witness for claim C10 on the concrete database `dbW`. -/
theorem claim_C10_witness :
    cinemasPut dbW "aaaaaaaaaaaaaaaaaaaaaaaa" ⟨some (.arr [])⟩ =
      (.notFound "Filme/s não encontrado/s, insira o id correto", dbW) :=
  claim_C10 dbW "aaaaaaaaaaaaaaaaaaaaaaaa" cinemaA (by decide) (by decide)

/-- Claim C5: for a paginated list request with digit-only `page`/`limit`
and `1 ≤ page ≤ totalPages`, the envelope contains `prevPage = page - 1`
iff `page > 1` and `nextPage = page + 1` iff `page < totalPages`.  The
theorem is stated over `paginate`, the pagination handler shared (verbatim,
by copy-paste) by `GET /users`, `GET /movies` and `GET /cinemas`
(`usersList`, `moviesList`, `cinemasList` are its three instances). -/
theorem claim_C5 {α : Type} (getId : α → Ident) (coll : List α) (path p l : String)
    (hp : isDigits p = true) (hl : isDigits l = true)
    (h1 : 1 ≤ natOfDigits p)
    (h2 : jsLeNat (natOfDigits p) (jsCeilDiv coll.length (natOfDigits l)) = true) :
    isOkResp (paginate getId coll path (some p) (some l)) = true ∧
    respPrev (paginate getId coll path (some p) (some l)) =
      some (if 1 < natOfDigits p then some (natOfDigits p - 1) else none) ∧
    respNext (paginate getId coll path (some p) (some l)) =
      some (if jsLtNat (natOfDigits p) (jsCeilDiv coll.length (natOfDigits l)) = true
        then some (.num ((natOfDigits p : ℚ) + 1)) else none) := by
  have hpne : (p == "") = false := by
    cases hpe : p == ""
    · rfl
    · exfalso
      have hpv : p = "" := by simpa using hpe
      rw [hpv] at hp
      simp [isDigits] at hp
  have hlne : (l == "") = false := by
    cases hle : l == ""
    · rfl
    · exfalso
      have hlv : l = "" := by simpa using hle
      rw [hlv] at hl
      simp [isDigits] at hl
  have hlt : decide (natOfDigits p < 1) = false :=
    decide_eq_false (Nat.not_lt.mpr h1)
  generalize htp : jsCeilDiv coll.length (natOfDigits l) = tp at h2 ⊢
  have hgt : jsGtNat (natOfDigits p) tp = false := by
    cases tp with
    | num q =>
      simp only [jsLeNat, decide_eq_true_eq] at h2
      simp only [jsGtNat, decide_eq_false_iff_not]
      exact not_lt.mpr h2
    | inf => rfl
    | nan => simp [jsLeNat] at h2
  simp only [paginate, hpne, hlne, hp, hl, Bool.or_self, Bool.false_or, Bool.and_self,
    Bool.not_true, if_false, Bool.or_false, htp, hlt, hgt, if_neg, Bool.false_eq_true,
    not_false_eq_true, isOkResp, respPrev, respNext, ite_false, ite_true]
  refine ⟨by trivial, ?_, ?_⟩
  · by_cases hgt1 : 1 < natOfDigits p
    · have hne0 : (natOfDigits p - 1 == 0) = false := by
        simp only [beq_eq_false_iff_ne, ne_eq]
        exact Nat.sub_ne_zero_of_lt hgt1
      simp [hgt1, hne0]
    · have : natOfDigits p = 1 := le_antisymm (Nat.not_lt.mp hgt1) h1
      simp [hgt1, this]
  · by_cases hltn : jsLtNat (natOfDigits p) tp = true
    · cases tp with
      | num q =>
        simp only [jsLtNat, decide_eq_true_eq] at hltn
        have hne : (jsEqN (JSNum.num ((natOfDigits p : ℚ) + 1)) (jsAdd1 (JSNum.num q))) = false := by
          simp only [jsAdd1, jsEqN, beq_eq_false_iff_ne, ne_eq]
          intro hcon
          exact absurd (by linarith [add_right_cancel hcon] : ¬ ((natOfDigits p : ℚ) < q)) (by simpa using hltn)
        simp [jsLtNat, hltn, hne]
      | inf =>
        simp [jsLtNat, jsAdd1, jsEqN]
      | nan => simp [jsLeNat] at h2
    · cases tp with
      | num q =>
        simp [hltn, jsAdd1, jsEqN]
      | inf => simp [jsLtNat] at hltn
      | nan => simp [jsLeNat] at h2

/-- Witness for claim C5: page 2 of a three-user collection with limit 1
has `prevPage = 1` and `nextPage = 3`. -/
theorem claim_C5_witness :
    isOkResp (paginate (fun u : UserDoc => u._id)
      [userAna, { userAna with _id := .num 8 }, { userAna with _id := .num 9 }]
      "/users" (some "2") (some "1")) = true ∧
    respPrev (paginate (fun u : UserDoc => u._id)
      [userAna, { userAna with _id := .num 8 }, { userAna with _id := .num 9 }]
      "/users" (some "2") (some "1")) = some (some 1) ∧
    respNext (paginate (fun u : UserDoc => u._id)
      [userAna, { userAna with _id := .num 8 }, { userAna with _id := .num 9 }]
      "/users" (some "2") (some "1")) = some (some (.num 3)) := by
  have h := claim_C5 (fun u : UserDoc => u._id)
    [userAna, { userAna with _id := .num 8 }, { userAna with _id := .num 9 }]
    "/users" "2" "1" (by decide) (by decide) (by decide) (by decide)
  refine ⟨h.1, ?_, ?_⟩
  · rw [h.2.1]; rfl
  · rw [h.2.2]
    have e2 : natOfDigits "2" = 2 := rfl
    have e1 : natOfDigits "1" = 1 := rfl
    rw [e2, e1]
    norm_num [jsCeilDiv, jsLtNat]

theorem ne_empty_of_isDigits {s : String} (h : isDigits s = true) : (s == "") = false := by
  cases he : s == ""
  · rfl
  · exfalso
    have hv : s = "" := by simpa using he
    rw [hv] at h
    simp [isDigits] at h

/-- Claim C6 (amended): with both parameters present and non-empty, only a
value failing the digit-only regex is answered with 400; a digit-only
`page=0` passes the regex and is answered 404 by the `page < 1` bound
check, and a digit-only `limit=0` with `1 ≤ page` produces a 200 success
response (`totalPages` becomes `Infinity` — or `NaN` on an empty
collection — and the JavaScript bound comparison is false against both).
Stated over `paginate`, the pagination handler shared by the three list
routes. -/
theorem claim_C6_amended {α : Type} (getId : α → Ident) (coll : List α) (path : String) :
    (∀ p l : String, (p == "") = false → (l == "") = false →
      (isDigits p && isDigits l) = false →
      paginate getId coll path (some p) (some l) =
        .badReq "A página e o limite devem ser números inteiros.") ∧
    (∀ l : String, isDigits l = true →
      paginate getId coll path (some "0") (some l) = .notFound "Página não existe") ∧
    (∀ p : String, isDigits p = true → 1 ≤ natOfDigits p →
      isOkResp (paginate getId coll path (some p) (some "0")) = true) := by
  refine ⟨?_, ?_, ?_⟩
  · intro p l hpne hlne hd
    simp [paginate, hpne, hlne, hd]
  · intro l hl
    have hlne := ne_empty_of_isDigits hl
    simp [paginate, hlne, hl, show isDigits "0" = true from rfl,
      show natOfDigits "0" = 0 from rfl]
  · intro p hp h1
    have hpne := ne_empty_of_isDigits hp
    have hlt : decide (natOfDigits p < 1) = false := decide_eq_false (Nat.not_lt.mpr h1)
    have hne0 : ¬ (natOfDigits p = 0) := by omega
    by_cases hn : (coll.length == 0) = true
    · simp [paginate, hpne, hp, hlt, hne0, show isDigits "0" = true from rfl,
        show natOfDigits "0" = 0 from rfl, jsCeilDiv, hn, jsGtNat, isOkResp]
    · simp only [Bool.not_eq_true] at hn
      simp [paginate, hpne, hp, hlt, hne0, show isDigits "0" = true from rfl,
        show natOfDigits "0" = 0 from rfl, jsCeilDiv, hn, jsGtNat, isOkResp]

/-- Counterexample to claim C6 as stated: on the one-movie database,
`GET /movies?page=0&limit=10` (digit-only but not strictly positive) is
answered 404 — not 400 — and `GET /movies?page=1&limit=0` is answered with
a 200 success response — not 400. -/
theorem claim_C6_counterexample :
    moviesList dbW (some "0") (some "10") = .notFound "Página não existe" ∧
    isOkResp (moviesList dbW (some "1") (some "0")) = true := by
  decide

/-- Witness for claim C6 (amended) at concrete inputs. -/
theorem claim_C6_witness :
    paginate (fun m : MovieDoc => m._id) dbW.movies "/movies" (some "2") (some "x") =
      .badReq "A página e o limite devem ser números inteiros." ∧
    paginate (fun m : MovieDoc => m._id) dbW.movies "/movies" (some "0") (some "10") =
      .notFound "Página não existe" ∧
    isOkResp (paginate (fun m : MovieDoc => m._id) dbW.movies "/movies"
      (some "1") (some "0")) = true := by
  have h := claim_C6_amended (fun m : MovieDoc => m._id) dbW.movies "/movies"
  exact ⟨h.1 "2" "x" rfl rfl rfl, h.2.1 "10" rfl, h.2.2 "1" rfl (by decide)⟩

/-- Claim C2 (amended): after every successful write in which the `movies`
value — when supplied — is an array, the stored `num_ratings` equals the
length of the stored `movies` array: every document inserted by
`POST /users` satisfies the invariant (with `movies` omitted the prepared
value is `[]` with `num_ratings = 0`); a `PUT` supplying `movies` as an
array stores the stamped entries and recomputes `num_ratings` as the
array's length; and a `PUT` omitting `movies` changes neither the stored
ratings nor `num_ratings`.  (A `PUT` whose `movies` value is falsy but not
an array — e.g. `null` — is the exception the counterexample exhibits: it
is `$set` verbatim without touching `num_ratings`.) -/
theorem claim_C2_amended (db : DB) (ts : Int) (d : String) :
    (∀ body fid resp db2, usersPost db body ts d fid = (resp, db2) →
      ∀ x ∈ db2.users, x ∈ db.users ∨
        ∃ l, x.movies = StoredMovies.entries l ∧
          x.num_ratings = some (.jnum (l.length : ℚ))) ∧
    (prepMovies ts d none = .ok ([], 0)) ∧
    (∀ s u l resp db2, u.movies = some (.arr l) →
      usersPut db s (.objBody u) ts d = (resp, db2) →
      ∀ x ∈ db2.users, x ∈ db.users ∨
        (x.movies = StoredMovies.entries (addTimestampAndDate ts d l) ∧
          x.num_ratings = some (.jnum (l.length : ℚ)))) ∧
    (∀ s u resp db2, u.movies = none →
      usersPut db s (.objBody u) ts d = (resp, db2) →
      ∀ x ∈ db2.users, x ∈ db.users ∨
        ∃ y ∈ db.users, x = applyUserSet u none y ∧
          x.movies = y.movies ∧ x.num_ratings = y.num_ratings) := by
  refine ⟨?_, rfl, ?_, ?_⟩
  · intro body fid resp db2 hpost x hx
    cases body with
    | notArr =>
      simp only [usersPost] at hpost
      cases hpost
      exact Or.inl hx
    | arr us =>
      simp only [usersPost] at hpost
      cases hproc : processUsers db.movies ts d 0 us with
      | error e =>
        rw [hproc] at hpost
        cases hpost
        exact Or.inl hx
      | ok pair =>
        obtain ⟨errsArr, prepared⟩ := pair
        rw [hproc] at hpost
        by_cases he : errsArr.isEmpty = true
        · simp only [he, Bool.not_true, Bool.false_eq_true, if_false, ite_false] at hpost
          cases hpost
          rcases List.mem_append.mp hx with h1 | h1
          · exact Or.inl h1
          · right
            rcases List.mem_map.mp h1 with ⟨pr, hpr, hmk⟩
            have hmem : pr.2 ∈ prepared := by
              obtain ⟨i, v⟩ := pr
              have := List.mem_enum hpr
              rw [this.2]
              exact List.getElem_mem this.1
            refine ⟨pr.2.movies, ?_, ?_⟩
            · rw [← hmk]; rfl
            · rw [← hmk]
              show some (JPrim.jnum (pr.2.num_ratings : ℚ)) =
                some (JPrim.jnum (pr.2.movies.length : ℚ))
              rw [processUsers_prepared db.movies ts d us 0 errsArr prepared hproc pr.2 hmem]
        · simp only [he, Bool.not_false, if_true, ite_true] at hpost
          cases hpost
          exact Or.inl hx
  · intro s u l resp db2 hm hput x hx
    have hdb2 : db2 = (usersPut db s (.objBody u) ts d).2 := by rw [hput]
    rcases usersPut_cases db s (.objBody u) ts d with hsame | ⟨uid, u2, upd, _, hb, hprep, heq⟩
    · rw [hdb2, hsame] at hx
      exact Or.inl hx
    · injection hb with hu2
      subst hu2
      rw [hm] at hprep
      simp only [prepPutMovies] at hprep
      injection hprep with hupd
      subst hupd
      rw [hdb2, heq] at hx
      simp only at hx
      rcases mem_updateFirst hx with h1 | ⟨y, _, hxy⟩
      · exact Or.inl h1
      · right
        rw [hxy]
        exact ⟨rfl, rfl⟩
  · intro s u resp db2 hm hput x hx
    have hdb2 : db2 = (usersPut db s (.objBody u) ts d).2 := by rw [hput]
    rcases usersPut_cases db s (.objBody u) ts d with hsame | ⟨uid, u2, upd, _, hb, hprep, heq⟩
    · rw [hdb2, hsame] at hx
      exact Or.inl hx
    · injection hb with hu2
      subst hu2
      rw [hm] at hprep
      simp only [prepPutMovies] at hprep
      injection hprep with hupd
      subst hupd
      rw [hdb2, heq] at hx
      simp only at hx
      rcases mem_updateFirst hx with h1 | ⟨y, hy, hxy⟩
      · exact Or.inl h1
      · right
        exact ⟨y, hy, hxy, by rw [hxy]; rfl, by rw [hxy]; rfl⟩

/-- Counterexample to claim C2 as stated: a `PUT /users/id/7` on a user
with one-element ratings whose body is `{movies: null}` succeeds (200) and
afterwards the stored `movies` value is `null` — not an array — while
`num_ratings` still holds its old value `2`, so "`num_ratings` equals the
length of the stored `movies` array" fails after a successful write. -/
theorem claim_C2_counterexample :
    (usersPut dbW "7" (.objBody ⟨none, none, none, none, some (.prim .jnull)⟩) 22 "D2").1 =
      .okMsg "User atualizado com sucesso" ∧
    ((usersPut dbW "7" (.objBody ⟨none, none, none, none, some (.prim .jnull)⟩) 22 "D2").2.users.map
      UserDoc.movies) = [StoredMovies.raw .jnull] ∧
    ((usersPut dbW "7" (.objBody ⟨none, none, none, none, some (.prim .jnull)⟩) 22 "D2").2.users.map
      UserDoc.num_ratings) = [some (.jnum 2)] := by
  decide

/-- Witness for claim C2 (amended): the document inserted by a concrete
`POST /users` satisfies the invariant, and a concrete `PUT` supplying
`movies` as a one-element array stores the stamped entry with
`num_ratings = 1`. -/
theorem claim_C2_witness :
    (∃ l, (⟨Ident.obj "id0", some (.jstr "Bo"), some (.jstr "M"), some (.jnum 20),
        some (.jstr "x"),
        .entries [⟨some (.jnum 1), some (.jnum 5), [], 33, "D3"⟩],
        some (.jnum ((1 : Nat) : ℚ))⟩ : UserDoc).movies = StoredMovies.entries l ∧
      (⟨Ident.obj "id0", some (.jstr "Bo"), some (.jstr "M"), some (.jnum 20),
        some (.jstr "x"),
        .entries [⟨some (.jnum 1), some (.jnum 5), [], 33, "D3"⟩],
        some (.jnum ((1 : Nat) : ℚ))⟩ : UserDoc).num_ratings =
          some (.jnum (l.length : ℚ))) ∧
    ((⟨Ident.num 7, some (.jstr "Ana"), some (.jstr "F"), some (.jnum 30), some (.jstr "eng"),
        .entries [⟨some (.jnum 1), some (.jnum 4), [], 44, "D4"⟩],
        some (.jnum ((1 : Nat) : ℚ))⟩ : UserDoc).movies =
      StoredMovies.entries (addTimestampAndDate 44 "D4"
        [.eobj (some (.jnum 1)) (some (.jnum 4)) []]) ∧
      (⟨Ident.num 7, some (.jstr "Ana"), some (.jstr "F"), some (.jnum 30), some (.jstr "eng"),
        .entries [⟨some (.jnum 1), some (.jnum 4), [], 44, "D4"⟩],
        some (.jnum ((1 : Nat) : ℚ))⟩ : UserDoc).num_ratings =
          some (.jnum (([(.eobj (some (.jnum 1)) (some (.jnum 4)) [] : EntryInput)]).length : ℚ))) := by
  constructor
  · have h := (claim_C2_amended dbW 33 "D3").1
      (.arr [⟨some (.jstr "Bo"), some (.jstr "M"), some (.jnum 20), some (.jstr "x"),
        some (.arr [.eobj (some (.jnum 1)) (some (.jnum 5)) []])⟩])
      (fun _ => .obj "id0")
      (usersPost dbW (.arr [⟨some (.jstr "Bo"), some (.jstr "M"), some (.jnum 20),
        some (.jstr "x"), some (.arr [.eobj (some (.jnum 1)) (some (.jnum 5)) []])⟩]) 33 "D3"
        (fun _ => .obj "id0")).1
      (usersPost dbW (.arr [⟨some (.jstr "Bo"), some (.jstr "M"), some (.jnum 20),
        some (.jstr "x"), some (.arr [.eobj (some (.jnum 1)) (some (.jnum 5)) []])⟩]) 33 "D3"
        (fun _ => .obj "id0")).2 rfl
    refine Or.resolve_left (h _ ?_) ?_
    · decide
    · decide
  · have h := (claim_C2_amended dbW 44 "D4").2.2.1 "7"
      ⟨none, none, none, none, some (.arr [.eobj (some (.jnum 1)) (some (.jnum 4)) []])⟩
      [.eobj (some (.jnum 1)) (some (.jnum 4)) []]
      (usersPut dbW "7" (.objBody ⟨none, none, none, none,
        some (.arr [.eobj (some (.jnum 1)) (some (.jnum 4)) []])⟩) 44 "D4").1
      (usersPut dbW "7" (.objBody ⟨none, none, none, none,
        some (.arr [.eobj (some (.jnum 1)) (some (.jnum 4)) []])⟩) 44 "D4").2 rfl rfl
    refine Or.resolve_left (h _ ?_) ?_
    · decide
    · decide

/-- Claim C3 (amended): `POST /users` is all-or-nothing — provided no user
supplies a truthy non-array `movies` value: if any user has validation
errors the whole batch is rejected with a 400 listing the per-index
`{userIndex, errors}` pairs and no document is inserted; if no user has
errors, every user is inserted in one `insertMany`.  The exception the
counterexample exhibits: a user whose `movies` value is truthy but not an
array does have a validation error, yet the handler stamps timestamps
before checking the accumulated errors, `movies.map` throws, and the
request is answered 500 (still with nothing inserted) instead of the 400
with details. -/
theorem claim_C3_amended (db : DB) (us : List UserInput) (ts : Int) (d : String)
    (fid : Nat → Ident) :
    ((∀ u ∈ us, throwsOnStamp u.movies = false) →
      userErrorDetails db.movies 0 us ≠ [] →
      usersPost db (.arr us) ts d fid =
        (.badReqDetails "Dados do user inválidos" (userErrorDetails db.movies 0 us), db)) ∧
    (userErrorDetails db.movies 0 us = [] →
      ∃ newDocs, usersPost db (.arr us) ts d fid =
        (.created "User/s adicionado/s com sucesso",
          { db with users := db.users ++ newDocs }) ∧
        newDocs.length = us.length) ∧
    ((∃ u ∈ us, throwsOnStamp u.movies = true) →
      usersPost db (.arr us) ts d fid =
        (.err500 "Erro ao recuperar users: movies.map is not a function", db)) := by
  refine ⟨?_, ?_, ?_⟩
  · intro hno hne
    rcases processUsers_ok_of_noThrow db.movies ts d us 0 hno with ⟨ps, hps, _⟩
    have hie : (userErrorDetails db.movies 0 us).isEmpty = false := by
      cases hcase : userErrorDetails db.movies 0 us with
      | nil => exact absurd hcase hne
      | cons a t => rfl
    simp [usersPost, hps, hie]
  · intro hnil
    have hno : ∀ u ∈ us, throwsOnStamp u.movies = false := by
      intro u hu
      have hv := userErrorDetails_nil hnil u hu
      cases ht : throwsOnStamp u.movies
      · rfl
      · exact absurd hv (validateUser_ne_of_throw ht)
    rcases processUsers_ok_of_noThrow db.movies ts d us 0 hno with ⟨ps, hps, hlen⟩
    refine ⟨ps.enum.map (fun p => mkUserDoc (fid p.1) p.2), ?_, ?_⟩
    · simp [usersPost, hps, hnil]
    · rw [List.length_map, List.enum_length, hlen]
  · intro hthrow
    have h := processUsers_error_of_throw db.movies ts d us 0 hthrow
    simp [usersPost, h]

/-- Counterexample to claim C3 as stated: a batch whose single user does
have a validation error ("movies must be an array", the `movies` value
being the string `"abc"`) is answered 500 — not 400 with
`{userIndex, errors}` details — because the timestamp stamping throws
before the error check; nothing is inserted. -/
theorem claim_C3_counterexample :
    validateUser dbW.movies ⟨some (.jstr "Bo"), some (.jstr "M"), some (.jnum 20),
      some (.jstr "x"), some (.prim (.jstr "abc"))⟩ =
      ["Campo \x27movies\x27 deve ser um array"] ∧
    usersPost dbW (.arr [⟨some (.jstr "Bo"), some (.jstr "M"), some (.jnum 20),
      some (.jstr "x"), some (.prim (.jstr "abc"))⟩]) 33 "D3" (fun _ => .obj "id0") =
      (.err500 "Erro ao recuperar users: movies.map is not a function", dbW) := by
  decide

/-- Witness for claim C3 (amended): a batch with a dangling `movieid` 99 is
rejected with the per-index details and no insertion; a fully valid batch
of one user is inserted. -/
theorem claim_C3_witness :
    usersPost dbW (.arr [⟨some (.jstr "Bo"), some (.jstr "M"), some (.jnum 20),
      some (.jstr "x"), some (.arr [.eobj (some (.jnum 99)) (some (.jnum 5)) []])⟩]) 33 "D3"
      (fun _ => .obj "id0") =
      (.badReqDetails "Dados do user inválidos"
        [(0, ["O filme com o id 99 não existe."])], dbW) ∧
    (∃ newDocs, usersPost dbW (.arr [⟨some (.jstr "Bo"), some (.jstr "M"), some (.jnum 20),
      some (.jstr "x"), some (.arr [.eobj (some (.jnum 1)) (some (.jnum 5)) []])⟩]) 33 "D3"
      (fun _ => .obj "id0") =
      (.created "User/s adicionado/s com sucesso",
        { dbW with users := dbW.users ++ newDocs }) ∧
      newDocs.length = 1) := by
  constructor
  · have h := (claim_C3_amended dbW [⟨some (.jstr "Bo"), some (.jstr "M"), some (.jnum 20),
      some (.jstr "x"), some (.arr [.eobj (some (.jnum 99)) (some (.jnum 5)) []])⟩] 33 "D3"
      (fun _ => .obj "id0")).1 (by decide) (by decide)
    rw [h]
    decide
  · exact (claim_C3_amended dbW [⟨some (.jstr "Bo"), some (.jstr "M"), some (.jnum 20),
      some (.jstr "x"), some (.arr [.eobj (some (.jnum 1)) (some (.jnum 5)) []])⟩] 33 "D3"
      (fun _ => .obj "id0")).2.1 (by decide)

/-- Claim C4 (amended): for `GET /users/id/:id` where the user exists
(uniquely) and has at least one rating entry, the response is the array
produced by the aggregation that unwinds the ratings, sorts them descending
by rating, limits to 5 and regroups them under `topMovies` — so the
returned document's `topMovies` has at most 5 entries in non-increasing
rating order — but the document carries ONLY `_id` and `topMovies`: the
`$group` stage drops every other field, so the subsequent `$project` of
`name`/`gender`/`age`/`occupation`/`num_ratings` has nothing to include and
the identity fields are absent from the response (see the counterexample). -/
theorem claim_C4_amended (db : DB) (s : String) (uid : Ident) (u : UserDoc)
    (l : List StampedEntry)
    (h1 : checkId s = some uid)
    (h2 : db.users.filter (fun x => x._id == uid) = [u])
    (h3 : u.movies = StoredMovies.entries l) (h4 : l ≠ []) :
    ∃ tops : List TopVal,
      usersGetById db s =
        .okList [[("_id", DVal.vid uid), ("topMovies", DVal.vtops tops)]] ∧
      tops.length ≤ 5 ∧ List.Pairwise ratingDescRel tops := by
  have hfind : db.users.find? (fun x => x._id == uid) = some u :=
    find?_of_filter_singleton h2
  have hlen : storedMoviesLength u.movies = .ok (some l.length) := by rw [h3]; rfl
  have hnz : (some l.length == some 0) = false := by
    simp only [beq_eq_false_iff_ne, ne_eq, Option.some.injEq]
    intro hc
    exact h4 (List.length_eq_zero.mp hc)
  rcases topMoviesAgg_spec h2 h3 h4 with ⟨tops, hagg, hle, _, hpw⟩
  refine ⟨tops, ?_, hle, hpw⟩
  simp only [usersGetById, h1, hfind, hlen, hnz, Bool.false_eq_true, if_false, ite_false]
  rw [hagg]

/-- Counterexample to claim C4 as stated: fetching the stored user `7`
(name "Ana", two ratings) returns a one-document array whose only keys are
`_id` and `topMovies` — `lookupKey` finds neither `name` nor `num_ratings`
in it, although the claim says the response carries the identity fields
alongside `topMovies`. -/
theorem claim_C4_counterexample :
    usersGetById dbW "7" =
      .okList [[("_id", DVal.vid (Ident.num 7)),
        ("topMovies", DVal.vtops [TopVal.ent entry5, TopVal.ent entry3])]] ∧
    lookupKey "name" [("_id", DVal.vid (Ident.num 7)),
      ("topMovies", DVal.vtops [TopVal.ent entry5, TopVal.ent entry3])] = none ∧
    lookupKey "num_ratings" [("_id", DVal.vid (Ident.num 7)),
      ("topMovies", DVal.vtops [TopVal.ent entry5, TopVal.ent entry3])] = none := by
  decide

/-- Witness for claim C4 (amended) on the concrete database `dbW`. -/
theorem claim_C4_witness :
    ∃ tops : List TopVal,
      usersGetById dbW "7" =
        .okList [[("_id", DVal.vid (Ident.num 7)), ("topMovies", DVal.vtops tops)]] ∧
      tops.length ≤ 5 ∧ List.Pairwise ratingDescRel tops :=
  claim_C4_amended dbW "7" (Ident.num 7) userAna [entry3, entry5]
    (by decide) (by decide) rfl (by decide)
